import Mathlib

/-!
Verification development for the nof1.ai order-execution and position-risk
engine.  The TypeScript sources are embedded shallowly: JavaScript numbers
become rationals, fallible calls become `Except`, and every remote exchange
interaction is recorded in an explicit effect trace so that theorems can
speak about which calls a code path performs.
-/

/-- JavaScript `a || b` on a number: `0` is falsy and selects `b`. -/
def jsOrNat (a b : Nat) : Nat := if a = 0 then b else a

/-- JavaScript `a || b` where `a` is an optional string: `undefined` and the
empty string are falsy and select `b`. -/
def jsOrStr (a : Option String) (b : String) : String :=
  match a with
  | some s => if s = "" then b else s
  | none => b

/-- JavaScript `symbol.includes("/")`. -/
def jsIncludesSlash (s : String) : Bool := s.data.contains '/'

/-- Drop the first occurrence of a character from a list. -/
def removeFirst (c : Char) : List Char → List Char
  | [] => []
  | x :: xs => if x = c then xs else x :: removeFirst c xs

/-- JavaScript `symbol.replace("/", "")`: removes only the first slash. -/
def jsReplaceSlash (s : String) : String := ⟨removeFirst '/' s.data⟩

/-- An error object thrown by the exchange client: `response.data.msg` when an
HTTP error body is present, plus the generic `message`. -/
structure ErrObj where
  respMsg : Option String
  message : String
deriving DecidableEq, Repr

/-- `error?.response?.data?.msg || error.message` — the exchange-reported
reason when present, otherwise the generic message. -/
def errMsg (e : ErrObj) : String := jsOrStr e.respMsg e.message

section Precision

/-- One row of the `SYMBOL_PRECISION` table: quantity decimals, price
decimals, minimum notional value. -/
structure PrecisionConfig where
  quantity : Nat
  price : Nat
  minNotional : ℚ
deriving DecidableEq, Repr

end Precision

namespace Biance

/-- `SYMBOL_PRECISION` table of `src/lib/trading/biance.ts` (SOLUSDT has 0
quantity decimals in this copy). -/
def SYMBOL_PRECISION (s : String) : Option PrecisionConfig :=
  if s = "BTCUSDT" then some ⟨3, 1, 5⟩
  else if s = "ETHUSDT" then some ⟨2, 2, 5⟩
  else if s = "BNBUSDT" then some ⟨1, 2, 5⟩
  else if s = "SOLUSDT" then some ⟨0, 3, 5⟩
  else if s = "ADAUSDT" then some ⟨0, 4, 5⟩
  else if s = "DOGEUSDT" then some ⟨0, 5, 5⟩
  else none

/-- `SYMBOL_PRECISION[symbol] || { quantity: 3, price: 2, minNotional: 5 }` —
the conservative fallback for unknown symbols. -/
def precisionFor (s : String) : PrecisionConfig :=
  (SYMBOL_PRECISION s).getD ⟨3, 2, 5⟩

/-- `adjustPrecision` of `biance.ts`: truncate toward zero at the symbol's
quantity-decimal count (`Math.floor(amount * factor) / factor`). -/
def adjustPrecision (amount : ℚ) (symbol : String) : ℚ :=
  let config := precisionFor symbol
  let factor : ℚ := 10 ^ config.quantity
  (⌊amount * factor⌋ : ℚ) / factor

end Biance

namespace Sell

/-- `SYMBOL_PRECISION` table of `src/lib/trading/sell.ts` (SOLUSDT has 1
quantity decimal in this copy). -/
def SYMBOL_PRECISION (s : String) : Option PrecisionConfig :=
  if s = "BTCUSDT" then some ⟨3, 1, 5⟩
  else if s = "ETHUSDT" then some ⟨2, 2, 5⟩
  else if s = "BNBUSDT" then some ⟨1, 2, 5⟩
  else if s = "SOLUSDT" then some ⟨1, 3, 5⟩
  else if s = "ADAUSDT" then some ⟨0, 4, 5⟩
  else if s = "DOGEUSDT" then some ⟨0, 5, 5⟩
  else none

/-- Fallback-applying lookup, as in `sell.ts`. -/
def precisionFor (s : String) : PrecisionConfig :=
  (SYMBOL_PRECISION s).getD ⟨3, 2, 5⟩

/-- `adjustPrecision` of `sell.ts` (same floor-truncation, its own table). -/
def adjustPrecision (amount : ℚ) (symbol : String) : ℚ :=
  let config := precisionFor symbol
  let factor : ℚ := 10 ^ config.quantity
  (⌊amount * factor⌋ : ℚ) / factor

end Sell

section Effects

/-- Parameters attached to a `newOrder` call, mirroring the `orderParams`
object built by the TypeScript code.  Numeric payloads are kept as rationals
(the source stringifies them, and formats stop prices with `toFixed(2)`, at
the wire boundary). -/
structure OrderReqParams where
  quantity : Option ℚ := none
  price : Option ℚ := none
  timeInForce : Option String := none
  reduceOnly : Bool := false
  closePosition : Bool := false
  positionSide : Option String := none
  stopPrice : Option ℚ := none
deriving DecidableEq, Repr

/-- One remote exchange interaction performed by the engine, in order. -/
inductive Effect where
  /-- `ensureTimeSync` round trip. -/
  | timeSync : Effect
  /-- `getBinanceInstance` session acquisition. -/
  | acquireSession : Effect
  /-- mark-price fetch for a symbol. -/
  | markPriceFetch (symbol : String) : Effect
  /-- `fetchPositions` signed REST call. -/
  | fetchPositions : Effect
  /-- `getCurrentMarketState` kline/indicator fetches. -/
  | marketStateFetch (symbol : String) : Effect
  /-- open-orders listing for a symbol (cleanup phase). -/
  | fetchOpenOrders (symbol : String) : Effect
  /-- cancellation of one order. -/
  | cancelOrder (symbol : String) (orderId : String) : Effect
  /-- position-mode lookup. -/
  | getPositionModeCall : Effect
  /-- `changeInitialLeverage` call. -/
  | setLeverage (symbol : String) (leverage : ℚ) : Effect
  /-- `newOrder(symbol, side, type, params)` submission. -/
  | newOrder (symbol : String) (side : String) (otype : String)
      (params : OrderReqParams) : Effect
  /-- local wait (`setTimeout`) of the given milliseconds. -/
  | sleep (ms : Nat) : Effect
  /-- one invocation of `setStopLossTakeProfit` from `buy`. -/
  | slTpCall (symbol : String) : Effect
deriving DecidableEq, Repr

/-- Whether an effect is an order submission. -/
def Effect.isNewOrder : Effect → Bool
  | .newOrder _ _ _ _ => true
  | _ => false

/-- Whether an effect is an order submission of the given order type. -/
def Effect.isOrderOfType (t : String) : Effect → Bool
  | .newOrder _ _ otype _ => otype = t
  | _ => false

/-- Whether an effect is a local wait. -/
def Effect.isSleep : Effect → Bool
  | .sleep _ => true
  | _ => false

/-- The quantity payload of an order-submission effect. -/
def Effect.orderQuantity : Effect → Option ℚ
  | .newOrder _ _ _ p => p.quantity
  | _ => none

end Effects

section PositionReader

/-- Canonical position view produced by `fetchPositions` (the fields the
trading functions read; the source record carries further derived fields). -/
structure Position where
  symbol : String
  side : String
  contracts : ℚ
  entryPrice : ℚ
  markPrice : ℚ
  unrealizedPnl : ℚ
deriving DecidableEq, Repr

end PositionReader

section ProtectionManager

/-- JavaScript truthiness of an optional number: `undefined` and `0` are
falsy. -/
def jsTruthyOpt (x : Option ℚ) : Bool :=
  match x with
  | some v => v ≠ 0
  | none => false

/-- JavaScript `a || b` on two strings: the empty string is falsy. -/
def jsOrS (a b : String) : String := if a = "" then b else a

/-- Input of `setStopLossTakeProfit`. -/
structure StopLossTakeProfitParams where
  symbol : String
  stopLoss : Option ℚ := none
  takeProfit : Option ℚ := none
  stopLossPercent : Option ℚ := none
  takeProfitPercent : Option ℚ := none
deriving DecidableEq, Repr

/-- Output of `setStopLossTakeProfit`. -/
structure StopLossTakeProfitResult where
  success : Bool
  stopLossOrderId : Option String := none
  takeProfitOrderId : Option String := none
  error : Option String := none
deriving DecidableEq, Repr

/-- An open order returned by the exchange during cleanup. -/
structure OpenOrder where
  orderId : String
  type : String
  positionSide : String
  stopPrice : Option ℚ := none
deriving DecidableEq, Repr

/-- Result of `cancelStopLossTakeProfitForPosition`. -/
structure CancelResult where
  success : Bool
  canceledCount : Nat
  error : Option String := none
deriving DecidableEq, Repr

/-- Exchange responses driving one `setStopLossTakeProfit` run: outcomes of
session acquisition, the position fetch, the market-state fetch (current
price and 14-period ATR), the open-order listing, per-order cancel success,
the cached position mode, and the two protective order creations. -/
structure SLTPEnv where
  session : Except ErrObj Unit
  positions : Except ErrObj (List Position)
  marketState : Except ErrObj (ℚ × ℚ)
  openOrders : Except ErrObj (List OpenOrder)
  cancelOk : String → Bool
  positionMode : String
  stopOrder : Except ErrObj String
  tpOrder : Except ErrObj String

/-- `cancelStopLossTakeProfitForPosition` of
`stop-loss-take-profit-official.ts`: looks up the position mode, lists open
orders (an inner catch turns a failed listing into the empty list), filters
to STOP_MARKET/TAKE_PROFIT_MARKET orders (matching `positionSide` only under
DUAL_SIDE mode), cancels each, tolerating individual failures. -/
def cancelStopLossTakeProfitForPosition (env : SLTPEnv) (binanceSymbol : String)
    (positionSide : String) : CancelResult × List Effect :=
  let t0 := [Effect.getPositionModeCall, Effect.fetchOpenOrders binanceSymbol]
  let openOrders := match env.openOrders with
    | .ok os => os
    | .error _ => []
  let slTpOrders :=
    if env.positionMode = "DUAL_SIDE" then
      openOrders.filter (fun o =>
        (o.type == "STOP_MARKET" || o.type == "TAKE_PROFIT_MARKET") &&
          o.positionSide == positionSide)
    else
      openOrders.filter (fun o =>
        o.type == "STOP_MARKET" || o.type == "TAKE_PROFIT_MARKET")
  if slTpOrders.isEmpty then
    ({ success := true, canceledCount := 0 }, t0)
  else
    let cancelTrace := slTpOrders.map (fun o => Effect.cancelOrder binanceSymbol o.orderId)
    let canceledCount := (slTpOrders.filter (fun o => env.cancelOk o.orderId)).length
    ({ success := true, canceledCount := canceledCount }, t0 ++ cancelTrace)

/-- Take-profit creation block of `setStopLossTakeProfit`: validates the
target's direction against the entry price, then places a
TAKE_PROFIT_MARKET close-position order; a creation failure is returned as
an error result. -/
def tpLeg (env : SLTPEnv) (binanceSymbol : String) (isLong : Bool)
    (entryPrice : ℚ) (finalTakeProfit : Option ℚ)
    (stopLossOrderId : Option String) : StopLossTakeProfitResult × List Effect :=
  if jsTruthyOpt finalTakeProfit then
    let tp := finalTakeProfit.getD 0
    if isLong ∧ tp ≤ entryPrice then
      ({ success := false,
         error := some ("Take profit price (" ++ toString tp ++
           ") must be above entry price (" ++ toString entryPrice ++
           ") for long position") }, [])
    else if (¬ isLong) ∧ tp ≥ entryPrice then
      ({ success := false,
         error := some ("Take profit price (" ++ toString tp ++
           ") must be below entry price (" ++ toString entryPrice ++
           ") for short position") }, [])
    else
      let tpParams : OrderReqParams :=
        { stopPrice := some tp, closePosition := true,
          positionSide := if env.positionMode = "DUAL_SIDE" then
            some (if isLong then "LONG" else "SHORT") else none }
      let t := [Effect.newOrder binanceSymbol (if isLong then "SELL" else "BUY")
        "TAKE_PROFIT_MARKET" tpParams]
      match env.tpOrder with
      | .error e =>
          ({ success := false,
             error := some ("Failed to create take profit: " ++ errMsg e) }, t)
      | .ok oid =>
          ({ success := true, stopLossOrderId := stopLossOrderId,
             takeProfitOrderId := some oid }, t)
  else
    ({ success := true, stopLossOrderId := stopLossOrderId }, [])

/-- Stop-loss creation block of `setStopLossTakeProfit`: validates the stop's
direction against the entry price, places a STOP_MARKET close-position
order, and on success falls through to the take-profit block; a creation
failure is returned immediately as an error result. -/
def slLeg (env : SLTPEnv) (binanceSymbol : String) (isLong : Bool)
    (entryPrice : ℚ) (finalStopLoss finalTakeProfit : Option ℚ) :
    StopLossTakeProfitResult × List Effect :=
  if jsTruthyOpt finalStopLoss then
    let sl := finalStopLoss.getD 0
    if isLong ∧ sl ≥ entryPrice then
      ({ success := false,
         error := some ("Stop loss price (" ++ toString sl ++
           ") must be below entry price (" ++ toString entryPrice ++
           ") for long position") }, [])
    else if (¬ isLong) ∧ sl ≤ entryPrice then
      ({ success := false,
         error := some ("Stop loss price (" ++ toString sl ++
           ") must be above entry price (" ++ toString entryPrice ++
           ") for short position") }, [])
    else
      let slParams : OrderReqParams :=
        { stopPrice := some sl, closePosition := true,
          positionSide := if env.positionMode = "DUAL_SIDE" then
            some (if isLong then "LONG" else "SHORT") else none }
      let t := [Effect.newOrder binanceSymbol (if isLong then "SELL" else "BUY")
        "STOP_MARKET" slParams]
      match env.stopOrder with
      | .error e =>
          ({ success := false,
             error := some ("Failed to create stop loss: " ++ errMsg e) }, t)
      | .ok oid =>
          let (r, t2) := tpLeg env binanceSymbol isLong entryPrice
            finalTakeProfit (some oid)
          (r, t ++ t2)
  else
    tpLeg env binanceSymbol isLong entryPrice finalTakeProfit none

/-- `setStopLossTakeProfit` of `stop-loss-take-profit-official.ts`: validate
the symbol, fetch the position, derive stop/target prices (explicit prices,
else percentages, else ATR-derived percentages with a 3%/10% fallback),
clean up stale protective orders, then run the stop-loss and take-profit
creation blocks.  The later `getPositionMode()` call hits the module cache
filled during cleanup, so no further effect is recorded for it. -/
def setStopLossTakeProfit (env : SLTPEnv) (params : StopLossTakeProfitParams) :
    StopLossTakeProfitResult × List Effect :=
  let symbol := params.symbol
  if symbol = "" ∨ ¬ (jsIncludesSlash symbol) then
    ({ success := false,
       error := some "Invalid symbol format. Use \x27BTC/USDT\x27" }, [])
  else
    match env.session with
    | .error e =>
        ({ success := false,
           error := some (jsOrS e.message "Unknown error occurred") },
         [Effect.acquireSession])
    | .ok _ =>
      let binanceSymbol := jsReplaceSlash symbol
      let t0 := [Effect.acquireSession, Effect.fetchPositions]
      match env.positions with
      | .error e =>
          ({ success := false,
             error := some (jsOrS e.message "Unknown error occurred") }, t0)
      | .ok positions =>
        match positions.find? (fun p => p.symbol == binanceSymbol) with
        | none =>
            ({ success := false,
               error := some ("No open position found for " ++ symbol) }, t0)
        | some position =>
          if position.contracts = 0 then
            ({ success := false,
               error := some ("No open position found for " ++ symbol) }, t0)
          else
            let isLong := position.side == "long"
            let entryPrice := position.entryPrice
            let noneGiven := ¬ jsTruthyOpt params.stopLoss ∧
              ¬ jsTruthyOpt params.takeProfit ∧
              ¬ jsTruthyOpt params.stopLossPercent ∧
              ¬ jsTruthyOpt params.takeProfitPercent
            let dyn : Option ℚ × Option ℚ × List Effect :=
              if noneGiven then
                match env.marketState with
                | .ok ms =>
                    let refPrice := if ms.1 = 0 then entryPrice else ms.1
                    let atr14 := ms.2
                    let volPct : ℚ :=
                      if 0 < refPrice ∧ 0 < atr14 then atr14 / refPrice * 100
                      else 2.5
                    (some (volPct * 1.5), some (volPct * 1.5 * 3.0),
                      [Effect.marketStateFetch symbol])
                | .error _ =>
                    (some 3.0, some 10.0, [Effect.marketStateFetch symbol])
              else
                (params.stopLossPercent, params.takeProfitPercent, [])
            let effSL := dyn.1
            let effTP := dyn.2.1
            let t1 := dyn.2.2
            let finalStopLoss : Option ℚ :=
              if jsTruthyOpt effSL ∧ ¬ jsTruthyOpt params.stopLoss then
                some (if isLong then entryPrice * (1 - effSL.getD 0 / 100)
                      else entryPrice * (1 + effSL.getD 0 / 100))
              else params.stopLoss
            let finalTakeProfit : Option ℚ :=
              if jsTruthyOpt effTP ∧ ¬ jsTruthyOpt params.takeProfit then
                some (if isLong then entryPrice * (1 + effTP.getD 0 / 100)
                      else entryPrice * (1 - effTP.getD 0 / 100))
              else params.takeProfit
            let cleanup := cancelStopLossTakeProfitForPosition env binanceSymbol
              (if isLong then "LONG" else "SHORT")
            let t2 := cleanup.2 ++
              (if cleanup.1.canceledCount > 0 then [Effect.sleep 5000]
               else [Effect.sleep 1000])
            let legs := slLeg env binanceSymbol isLong entryPrice
              finalStopLoss finalTakeProfit
            (legs.1, t0 ++ t1 ++ t2 ++ legs.2)

end ProtectionManager

section OrderExecutor

/-- Response body of a successful `newOrder` submission (the fields the
result extraction reads). -/
structure OrderData where
  orderId : Option String := none
  avgPrice : Option ℚ := none
  price : Option ℚ := none
  executedQty : Option ℚ := none
  origQty : Option ℚ := none
deriving DecidableEq, Repr

/-- The order-submission retry loop shared in shape by `buy` and `sell`:
up to 3 attempts; a failed attempt before the third sleeps `delayMs attempt`
milliseconds and retries with the identical request; the third failure is
rethrown.  `buy` uses `delayMs attempt = attempt * 3000` (3s, 6s), `sell`
uses `attempt * 2000` (2s, 4s). -/
def orderSubmitLoop (orderAttempt : Nat → Except ErrObj OrderData)
    (eff : Effect) (delayMs : Nat → Nat) (attempt : Nat) :
    Except ErrObj OrderData × List Effect :=
  match orderAttempt attempt with
  | .ok od => (.ok od, [eff])
  | .error e =>
    if attempt < 3 then
      let rest := orderSubmitLoop orderAttempt eff delayMs (attempt + 1)
      (rest.1, eff :: Effect.sleep (delayMs attempt) :: rest.2)
    else (.error e, [eff])
termination_by 3 - attempt
decreasing_by all_goals omega

/-- The SL/TP retry loop inside `buy`: up to 3 attempts of
`setStopLossTakeProfit`, waiting 3s after the first failure and 5s after the
second; exceptions are swallowed and retried the same way.  Returns whether
any attempt reported success. -/
def slTpRetryLoop (slTpAttempt : Nat → Except ErrObj StopLossTakeProfitResult)
    (symbol : String) (attempt : Nat) : Bool × List Effect :=
  let t0 := [Effect.slTpCall symbol]
  match slTpAttempt attempt with
  | .ok r =>
    if r.success then (true, t0)
    else if attempt < 3 then
      let d := if attempt = 1 then 3000 else 5000
      let rest := slTpRetryLoop slTpAttempt symbol (attempt + 1)
      (rest.1, t0 ++ Effect.sleep d :: rest.2)
    else (false, t0)
  | .error _ =>
    if attempt < 3 then
      let d := if attempt = 1 then 3000 else 5000
      let rest := slTpRetryLoop slTpAttempt symbol (attempt + 1)
      (rest.1, t0 ++ Effect.sleep d :: rest.2)
    else (false, t0)
termination_by 3 - attempt
decreasing_by all_goals omega

/-- An SL/TP attempt outcome counted as failed by the retry loop: either a
thrown error or a returned result with success = false. -/
def slTpAttemptFailed : Except ErrObj StopLossTakeProfitResult → Prop
  | .ok r => r.success = false
  | .error _ => True

/-- Input of `buy` (`BuyParams` of `biance.ts`); `leverage` defaults to 10
and `autoSetStopLoss` to true when absent. -/
structure BuyParams where
  symbol : String
  amount : ℚ
  leverage : Option ℚ := none
  price : Option ℚ := none
  autoSetStopLoss : Option Bool := none
  stopLossPercent : Option ℚ := none
  takeProfitPercent : Option ℚ := none
deriving DecidableEq, Repr

/-- Output of `buy` (`BuyResult` of `biance.ts`). -/
structure BuyResult where
  success : Bool
  orderId : Option String := none
  executedPrice : Option ℚ := none
  executedAmount : Option ℚ := none
  error : Option String := none
deriving DecidableEq, Repr

/-- `checkMinNotional` of `biance.ts`: market orders without a known price
skip the check; otherwise the notional must reach the symbol's minimum. -/
def checkMinNotional (amount : ℚ) (symbol : String) (price : Option ℚ) :
    Bool × Option String :=
  let config := Biance.precisionFor symbol
  if ¬ jsTruthyOpt price then (true, none)
  else
    let notional := amount * price.getD 0
    if notional < config.minNotional then
      (false, some ("Order value $" ++ toString notional ++
        " below minimum $" ++ toString config.minNotional))
    else (true, none)

/-- `minAmount` computation of `buy`:
`Math.pow(10, -(SYMBOL_PRECISION[binanceSymbol]?.quantity || 3))`.  The
JavaScript `||` makes a configured quantity of 0 decimals fall back to 3. -/
def minAmountFor (binanceSymbol : String) : ℚ :=
  let q := match Biance.SYMBOL_PRECISION binanceSymbol with
    | some c => jsOrNat c.quantity 3
    | none => 3
  1 / 10 ^ q

/-- Exchange responses driving one `buy` run: session acquisition outcome,
mark-price fetch, leverage-set success (its failure is non-fatal), the
cached position mode, and per-attempt outcomes of the entry order and of
the SL/TP setup. -/
structure BuyEnv where
  session : Except ErrObj Unit
  markPrice : Except ErrObj ℚ
  leverageSetOk : Bool
  positionMode : String
  orderAttempt : Nat → Except ErrObj OrderData
  slTpAttempt : Nat → Except ErrObj StopLossTakeProfitResult

/-- Local validation block at the top of `buy`: slash-separated symbol,
positive amount, leverage within [1, 30]; returns the error message of the
first failing check. -/
def buyValidate (params : BuyParams) : Option String :=
  let symbol := params.symbol
  let amount := params.amount
  let leverage := params.leverage.getD 10
  if symbol = "" ∨ ¬ (jsIncludesSlash symbol) then
    some "Invalid symbol format. Use \x27BTC/USDT\x27"
  else if amount ≤ 0 then
    some "Amount must be greater than 0"
  else if leverage < 1 ∨ leverage > 30 then
    some "Leverage must be between 1 and 30"
  else none

/-- The `try` block of `buy`: time sync, mark-price lookup, precision
rounding with auto-scaling of too-small orders, minimum-notional check for
limit orders, non-fatal leverage setting, entry submission with retries,
then best-effort SL/TP setup whose failure leaves the returned result
untouched.  `ensureTimeSync` acquires the session first, so a failed
initialization surfaces there; the later `getBinanceInstance()` call is a
cache hit. -/
def buyCore (env : BuyEnv) (params : BuyParams) : BuyResult × List Effect :=
  let symbol := params.symbol
  let amount := params.amount
  let leverage := params.leverage.getD 10
  let price := params.price
  let autoSetStopLoss := params.autoSetStopLoss.getD true
  match env.session with
    | .error e =>
        ({ success := false,
           error := some (jsOrS e.message "Unknown error occurred during buy") },
         [Effect.acquireSession])
    | .ok _ =>
      let t0 := [Effect.acquireSession, Effect.timeSync]
      let binanceSymbol := jsReplaceSlash symbol
      let priceFetch : ℚ × List Effect :=
        if jsTruthyOpt price then (price.getD 0, [])
        else
          match env.markPrice with
          | .ok p => (p, [Effect.markPriceFetch binanceSymbol])
          | .error _ => (1, [Effect.markPriceFetch binanceSymbol])
      let currentPrice := priceFetch.1
      let t1 := priceFetch.2
      let adjustedAmount0 := Biance.adjustPrecision amount binanceSymbol
      let minAmount := minAmountFor binanceSymbol
      let scaled : Except String (ℚ × ℚ) :=
        if adjustedAmount0 = 0 ∨ adjustedAmount0 < minAmount then
          let currentPositionValue := amount * currentPrice
          let minPositionValue := minAmount * currentPrice
          let suggestedMultiplier : ℤ := ⌈minPositionValue / currentPositionValue⌉
          let suggestedLeverage : ℚ := min (leverage * suggestedMultiplier) 30
          if suggestedLeverage ≤ 30 ∧ (suggestedMultiplier : ℚ) ≤ 20 then
            .ok (minAmount, suggestedLeverage)
          else
            .error ("Amount " ++ toString amount ++ " too small. Minimum for "
              ++ symbol ++ " is " ++ toString minAmount ++
              ". Suggested leverage " ++ toString suggestedLeverage ++
              "x exceeds safe limit 30x - SKIP THIS TRADE.")
        else .ok (adjustedAmount0, leverage)
      match scaled with
      | .error msg => ({ success := false, error := some msg }, t0 ++ t1)
      | .ok scaledOk =>
        let adjustedAmount := scaledOk.1
        let effectiveLeverage := scaledOk.2
        if adjustedAmount ≤ 0 ∨ adjustedAmount < minAmount then
          ({ success := false,
             error := some ("Invalid adjusted amount " ++
               toString adjustedAmount ++ " " ++ symbol ++ " (min: " ++
               toString minAmount ++ "). Original amount: " ++
               toString amount) }, t0 ++ t1)
        else
          let notionalCheck := checkMinNotional adjustedAmount binanceSymbol price
          if jsTruthyOpt price ∧ notionalCheck.1 = false then
            ({ success := false,
               error := some (jsOrStr notionalCheck.2 "Order value too small") },
             t0 ++ t1)
          else
            let t2 := [Effect.setLeverage binanceSymbol effectiveLeverage,
              Effect.getPositionModeCall]
            let orderType := if jsTruthyOpt price then "LIMIT" else "MARKET"
            let orderParams : OrderReqParams :=
              { quantity := some adjustedAmount,
                positionSide := if env.positionMode = "DUAL_SIDE" then
                  some "LONG" else none,
                price := if jsTruthyOpt price then price else none,
                timeInForce := if jsTruthyOpt price then some "GTC" else none }
            let submission := orderSubmitLoop env.orderAttempt
              (Effect.newOrder binanceSymbol "BUY" orderType orderParams)
              (fun attempt => attempt * 3000) 1
            match submission.1 with
            | .error e =>
                ({ success := false,
                   error := some (jsOrS e.message
                     "Unknown error occurred during buy") },
                 t0 ++ t1 ++ t2 ++ submission.2)
            | .ok orderResult =>
              let slTpTrace :=
                if autoSetStopLoss then
                  Effect.sleep 8000 ::
                    (slTpRetryLoop env.slTpAttempt symbol 1).2
                else []
              ({ success := true,
                 orderId := orderResult.orderId,
                 executedPrice :=
                   some (orderResult.avgPrice.getD (orderResult.price.getD 0)),
                 executedAmount :=
                   some (orderResult.executedQty.getD (orderResult.origQty.getD 0)),
                 error := none },
               t0 ++ t1 ++ t2 ++ submission.2 ++ slTpTrace)

/-- `buy` of `biance.ts`: the local validation block followed by the `try`
block. -/
def buy (env : BuyEnv) (params : BuyParams) : BuyResult × List Effect :=
  match buyValidate params with
  | some e => ({ success := false, error := some e }, [])
  | none => buyCore env params

/-- Input of `sell` (`SellParams` of `sell.ts`); `percentage` defaults to
100 when absent. -/
structure SellParams where
  symbol : String
  percentage : Option ℚ := none
  amount : Option ℚ := none
  price : Option ℚ := none
deriving DecidableEq, Repr

/-- Output of `sell` (`SellResult` of `sell.ts`). -/
structure SellResult where
  success : Bool
  orderId : Option String := none
  executedPrice : Option ℚ := none
  executedAmount : Option ℚ := none
  error : Option String := none
deriving DecidableEq, Repr

/-- Exchange responses driving one `sell` run. -/
structure SellEnv where
  session : Except ErrObj Unit
  positions : Except ErrObj (List Position)
  orderAttempt : Nat → Except ErrObj OrderData

/-- `sell` of `sell.ts`: local validation, time sync, optional position
lookup to size the exit, precision rounding (its own table), then a
reduce-only exit submission retried up to 3 times with 2s/4s delays; the
third failure's error propagates into the returned result with the
exchange-reported message preferred. -/
def sell (env : SellEnv) (params : SellParams) : SellResult × List Effect :=
  let symbol := params.symbol
  let percentage := params.percentage.getD 100
  let amount := params.amount
  let price := params.price
  if symbol = "" ∨ ¬ (jsIncludesSlash symbol) then
    ({ success := false,
       error := some "Invalid symbol format. Use \x27BTC/USDT\x27" }, [])
  else if percentage ≤ 0 ∨ percentage > 100 then
    ({ success := false,
       error := some "Percentage must be between 0 and 100" }, [])
  else
    match env.session with
    | .error e =>
        ({ success := false,
           error := some (jsOrStr e.respMsg
             (jsOrS e.message "Unknown error occurred during sell")) },
         [Effect.acquireSession])
    | .ok _ =>
      let t0 := [Effect.acquireSession, Effect.timeSync]
      let binanceSymbol := jsReplaceSlash symbol
      let sized : Except SellResult (ℚ × String) × List Effect :=
        if jsTruthyOpt amount then (.ok (amount.getD 0, "LONG"), [])
        else
          match env.positions with
          | .error e =>
              let r : SellResult :=
                { success := false,
                  error := some ("Failed to fetch position for " ++ symbol ++
                    ": " ++ e.message) }
              (.error r, [Effect.fetchPositions])
          | .ok positions =>
            match positions.find? (fun p =>
                p.symbol == binanceSymbol && p.contracts ≠ 0) with
            | none =>
                let available := ((positions.filter
                  (fun p => p.contracts ≠ 0)).map (fun p => p.symbol))
                let r : SellResult :=
                  { success := false,
                    error := some ("No open position found for " ++ symbol ++
                      ". Available: " ++
                      (jsOrS (String.intercalate ", " available) "None")) }
                (.error r, [Effect.fetchPositions])
            | some position =>
                let positionSide := if position.side == "long" then "LONG"
                  else "SHORT"
                (.ok (|position.contracts| * (percentage / 100), positionSide),
                 [Effect.fetchPositions])
      match sized.1 with
      | .error r => (r, t0 ++ sized.2)
      | .ok sellOk =>
        let sellAmount := sellOk.1
        let positionSide := sellOk.2
        if sellAmount ≤ 0 then
          ({ success := false,
             error := some "Sell amount must be greater than 0" }, t0 ++ sized.2)
        else
          let adjustedAmount := Sell.adjustPrecision sellAmount binanceSymbol
          let minQ : Nat := match Sell.SYMBOL_PRECISION binanceSymbol with
            | some c => jsOrNat c.quantity 3
            | none => 3
          if adjustedAmount = 0 then
            ({ success := false,
               error := some ("Amount " ++ toString sellAmount ++
                 " too small. Minimum for " ++ symbol ++ " is " ++
                 toString ((1 : ℚ) / 10 ^ minQ)) }, t0 ++ sized.2)
          else
            let orderType := if jsTruthyOpt price then "LIMIT" else "MARKET"
            let side := if positionSide = "LONG" then "SELL" else "BUY"
            let orderParams : OrderReqParams :=
              { quantity := some adjustedAmount,
                reduceOnly := true,
                price := if jsTruthyOpt price then price else none,
                timeInForce := if jsTruthyOpt price then some "GTC" else none }
            let submission := orderSubmitLoop env.orderAttempt
              (Effect.newOrder binanceSymbol side orderType orderParams)
              (fun attempt => attempt * 2000) 1
            match submission.1 with
            | .error e =>
                ({ success := false,
                   error := some (jsOrStr e.respMsg
                     (jsOrS e.message "Unknown error occurred during sell")) },
                 t0 ++ sized.2 ++ submission.2)
            | .ok orderResult =>
                ({ success := true,
                   orderId := orderResult.orderId,
                   executedPrice :=
                     some (orderResult.avgPrice.getD (orderResult.price.getD 0)),
                   executedAmount :=
                     some (orderResult.executedQty.getD (orderResult.origQty.getD 0)),
                   error := none },
                 t0 ++ sized.2 ++ submission.2)

end OrderExecutor

section RiskPolicy

/-- Risk control configuration (`RiskConfig` of the risk module). -/
structure RiskConfig where
  tradingMode : String
  maxPositionSizeUSDT : ℚ
  maxLeverage : ℚ
  dailyLossLimitPercent : ℚ
deriving DecidableEq, Repr

/-- Result of a risk check (`RiskCheckResult`). -/
structure RiskCheckResult where
  allowed : Bool
  reason : Option String := none
deriving DecidableEq, Repr

/-- `checkDailyLossLimit`: reject new entries once today's PnL is negative
and the loss, as a percent of initial capital, meets or exceeds the
configured daily loss limit. -/
def checkDailyLossLimit (todayPnL initialCapital : ℚ) (config : RiskConfig) :
    RiskCheckResult :=
  let lossPercent := (|todayPnL| / initialCapital) * 100
  if todayPnL < 0 ∧ lossPercent ≥ config.dailyLossLimitPercent then
    { allowed := false,
      reason := some ("Daily loss limit reached: -" ++ toString lossPercent ++
        "% (limit: " ++ toString config.dailyLossLimitPercent ++ "%)") }
  else { allowed := true }

end RiskPolicy

section LearningFeedback

/-- The performance statistics read by `getDynamicRiskAdjustment` (the full
`LearningStats` record carries further fields this function ignores). -/
structure LearningStats where
  win_rate : ℚ
  total_pnl : ℚ
deriving DecidableEq, Repr

/-- Output of `getDynamicRiskAdjustment`. -/
structure RiskAdjustment where
  leverage_multiplier : ℚ
  position_size_multiplier : ℚ
  confidence_threshold : ℚ
  recommendation : String
deriving DecidableEq, Repr

/-- `getDynamicRiskAdjustment` of `learning-feedback.ts`: win-rate tiers
pick base multipliers and a confidence threshold, then a total PnL below
-10 further multiplies both by 0.6 and raises the threshold to at least
0.75. -/
def getDynamicRiskAdjustment (stats : LearningStats) : RiskAdjustment :=
  let m0 : ℚ × ℚ × ℚ :=
    if stats.win_rate < 40 then (0.5, 0.5, 0.75)
    else if stats.win_rate < 50 then (0.7, 0.7, 0.7)
    else if stats.win_rate > 65 then (1.2, 1.1, 0.55)
    else (1.0, 1.0, 0.6)
  let m1 : ℚ × ℚ × ℚ :=
    if stats.total_pnl < -10 then
      (m0.1 * 0.6, m0.2.1 * 0.6, max m0.2.2 0.75)
    else m0
  let recommendation :=
    if m1.1 < 0.8 then
      "RISK REDUCED: Due to recent poor performance, leverage and position sizes are reduced. Focus on rebuilding confidence with smaller, high-quality trades."
    else if m1.1 > 1.1 then
      "RISK INCREASED: Strong recent performance allows for slightly larger positions. Continue executing quality trades."
    else
      "NORMAL RISK: Maintain standard position sizing and leverage."
  { leverage_multiplier := m1.1,
    position_size_multiplier := m1.2.1,
    confidence_threshold := m1.2.2,
    recommendation := recommendation }

end LearningFeedback

section SessionManager

/-- Module-level state of `binance-official.ts` relevant to session
acquisition: the memoized initialization promise (identified by a token)
and, for specification purposes, how many initializations have been
started. -/
structure SessionModuleState where
  initializationPromise : Option Nat
  initsStarted : Nat
deriving DecidableEq, Repr

/-- Module state at process start: no promise, no initialization yet. -/
def initialSessionState : SessionModuleState :=
  { initializationPromise := none, initsStarted := 0 }

/-- `getBinanceInstance` of `binance-official.ts` as a step on the module
state.  The synchronous body — test the memo, install a fresh promise when
absent, return the stored promise — runs to completion atomically under the
JavaScript event loop, so every interleaving of concurrent callers is a
sequence of these steps.  The returned number identifies the promise handed
to the caller. -/
def getBinanceInstance (s : SessionModuleState) : SessionModuleState × Nat :=
  match s.initializationPromise with
  | some p => (s, p)
  | none =>
      let p := s.initsStarted + 1
      ({ initializationPromise := some p, initsStarted := p }, p)

/-- A sequence of `n` calls to `getBinanceInstance`, collecting the promise
each caller receives. -/
def runGetInstanceCalls : Nat → SessionModuleState → SessionModuleState × List Nat
  | 0, s => (s, [])
  | n + 1, s =>
      let step := getBinanceInstance s
      let rest := runGetInstanceCalls n step.1
      (rest.1, step.2 :: rest.2)

end SessionManager

section Fixtures

/-- Entry-order response used by concrete scenarios. -/
def odBTC : OrderData :=
  { orderId := some "42", avgPrice := some 100, executedQty := some 1 }

/-- A benign exchange environment for `buy`. -/
def buyEnvBase : BuyEnv :=
  { session := .ok (),
    markPrice := .ok 100,
    leverageSetOk := true,
    positionMode := "ONE_WAY",
    orderAttempt := fun _ => .ok odBTC,
    slTpAttempt := fun _ => .ok { success := true,
                                  stopLossOrderId := some "7",
                                  takeProfitOrderId := some "8" } }

/-- Buy parameters whose symbol is missing the slash separator. -/
def buyParamsBadSymbol : BuyParams := { symbol := "BTCUSDT", amount := 1 }

/-- Buy parameters for a plain 1 BTC market entry at 10x. -/
def buyParamsBTC : BuyParams :=
  { symbol := "BTC/USDT", amount := 1, leverage := some 10 }

/-- Buy parameters for the auto-scaling scenario: 0.0005 BTC at 10x, below
the 0.001 minimum. -/
def buyParamsSmall : BuyParams :=
  { symbol := "BTC/USDT", amount := 1 / 2000, leverage := some 10 }

/-- Environment where the entry fills at once but every SL/TP setup attempt
reports failure. -/
def buyEnvProtFail : BuyEnv :=
  { buyEnvBase with
    slTpAttempt := fun _ => .ok { success := false,
                                  error := some "Order would immediately trigger." } }

/-- Sell parameters: a 1 BTC market exit with the quantity given
explicitly. -/
def sellParamsBTC : SellParams := { symbol := "BTC/USDT", amount := some 1 }

/-- Per-attempt failures of the exit submission, with distinct
exchange-reported messages. -/
def sellErr (i : Nat) : ErrObj :=
  { respMsg := some ("Margin is insufficient (attempt " ++ toString i ++ ")"),
    message := "Request failed with status code 400" }

/-- Environment where every exit submission attempt fails. -/
def sellEnvAllFail : SellEnv :=
  { session := .ok (),
    positions := .ok [],
    orderAttempt := fun i => .error (sellErr i) }

/-- An open long position of 1 BTC entered at price 100. -/
def posLongBTC : Position :=
  { symbol := "BTCUSDT", side := "long", contracts := 1,
    entryPrice := 100, markPrice := 102, unrealizedPnl := 2 }

/-- Protection environment whose exchange accepts everything. -/
def sltpEnvOk : SLTPEnv :=
  { session := .ok (),
    positions := .ok [posLongBTC],
    marketState := .ok (100, 2),
    openOrders := .ok [],
    cancelOk := fun _ => true,
    positionMode := "ONE_WAY",
    stopOrder := .ok "71",
    tpOrder := .ok "72" }

/-- Protection environment where creating the stop-loss order fails. -/
def sltpEnvSLFail : SLTPEnv :=
  { sltpEnvOk with
    stopOrder := .error { respMsg := some "Order would immediately trigger.",
                          message := "Request failed with status code 400" } }

/-- Protection request for both legs with valid prices for a long entered
at 100: stop 90 below, target 110 above. -/
def sltpParamsBoth : StopLossTakeProfitParams :=
  { symbol := "BTC/USDT", stopLoss := some 90, takeProfit := some 110 }

/-- Protection request with an invalid stop for a long entered at 100: the
stop price 120 is above the entry. -/
def sltpParamsBadStop : StopLossTakeProfitParams :=
  { symbol := "BTC/USDT", stopLoss := some 120 }

end Fixtures

/-- The floor-at-`d`-decimals truncation is idempotent. -/
theorem floorScale_idem (f : ℚ) (hf : f ≠ 0) (x : ℚ) :
    (⌊((⌊x * f⌋ : ℚ) / f) * f⌋ : ℚ) / f = (⌊x * f⌋ : ℚ) / f := by
  rw [div_mul_cancel₀ _ hf, Int.floor_intCast]

/-- The floor-at-`d`-decimals truncation never rounds up. -/
theorem floorScale_le (f : ℚ) (hf : 0 < f) (x : ℚ) :
    (⌊x * f⌋ : ℚ) / f ≤ x := by
  rw [div_le_iff₀ hf]
  exact Int.floor_le _

/-- C6: for every symbol and every positive quantity, both copies of the
precision-rounding function (`biance.ts` and `sell.ts`) are idempotent and
never round up, truncating toward zero at the symbol's decimal count; a
symbol absent from the table falls back to 3 quantity decimals. -/
theorem adjustPrecision_idem_le (symbol : String) (x : ℚ) (_hx : 0 < x) :
    Biance.adjustPrecision (Biance.adjustPrecision x symbol) symbol =
        Biance.adjustPrecision x symbol ∧
      Biance.adjustPrecision x symbol ≤ x ∧
      Sell.adjustPrecision (Sell.adjustPrecision x symbol) symbol =
        Sell.adjustPrecision x symbol ∧
      Sell.adjustPrecision x symbol ≤ x ∧
      (Biance.SYMBOL_PRECISION symbol = none →
        (Biance.precisionFor symbol).quantity = 3) ∧
      (Sell.SYMBOL_PRECISION symbol = none →
        (Sell.precisionFor symbol).quantity = 3) := by
  have hb : (0 : ℚ) < 10 ^ (Biance.precisionFor symbol).quantity := by positivity
  have hs : (0 : ℚ) < 10 ^ (Sell.precisionFor symbol).quantity := by positivity
  refine ⟨?_, ?_, ?_, ?_, ?_, ?_⟩
  · exact floorScale_idem _ (ne_of_gt hb) x
  · exact floorScale_le _ hb x
  · exact floorScale_idem _ (ne_of_gt hs) x
  · exact floorScale_le _ hs x
  · intro h
    simp [Biance.precisionFor, h]
  · intro h
    simp [Sell.precisionFor, h]

/-- C6 witness: the properties instantiated at symbol BTCUSDT and
quantity 1. -/
theorem adjustPrecision_idem_le_witness :
    (0 : ℚ) < 1 ∧
      (Biance.adjustPrecision (Biance.adjustPrecision 1 "BTCUSDT") "BTCUSDT" =
          Biance.adjustPrecision 1 "BTCUSDT" ∧
        Biance.adjustPrecision 1 "BTCUSDT" ≤ 1 ∧
        Sell.adjustPrecision (Sell.adjustPrecision 1 "BTCUSDT") "BTCUSDT" =
          Sell.adjustPrecision 1 "BTCUSDT" ∧
        Sell.adjustPrecision 1 "BTCUSDT" ≤ 1 ∧
        (Biance.SYMBOL_PRECISION "BTCUSDT" = none →
          (Biance.precisionFor "BTCUSDT").quantity = 3) ∧
        (Sell.SYMBOL_PRECISION "BTCUSDT" = none →
          (Sell.precisionFor "BTCUSDT").quantity = 3)) :=
  ⟨by decide, adjustPrecision_idem_le "BTCUSDT" 1 (by decide)⟩

/-- C5: for positive initial capital, `checkDailyLossLimit` returns
not-allowed exactly when today's PnL is negative and the loss percentage
meets or exceeds the configured limit (boundary inclusive on the
not-allowed side); all other inputs are allowed. -/
theorem checkDailyLossLimit_spec (todayPnL initialCapital : ℚ)
    (config : RiskConfig) (_hcap : 0 < initialCapital) :
    ((checkDailyLossLimit todayPnL initialCapital config).allowed = false ↔
      (todayPnL < 0 ∧
        |todayPnL| / initialCapital * 100 ≥ config.dailyLossLimitPercent)) := by
  simp only [checkDailyLossLimit]
  split_ifs with h
  · simpa using h
  · simpa using h

/-- C5 witness: a 20% loss of a 100-unit capital at a 20% limit is exactly
on the boundary and is rejected. -/
theorem checkDailyLossLimit_spec_witness :
    (0 : ℚ) < 100 ∧
      ((checkDailyLossLimit (-20) 100
          ⟨"dry-run", 5000, 30, 20⟩).allowed = false ↔
        ((-20 : ℚ) < 0 ∧ |(-20 : ℚ)| / 100 * 100 ≥ (20 : ℚ))) :=
  ⟨by decide, checkDailyLossLimit_spec (-20) 100 ⟨"dry-run", 5000, 30, 20⟩ (by decide)⟩

/-- C8: the win-rate tiers of `getDynamicRiskAdjustment` produce exactly the
multipliers 0.5/0.5/0.75 (below 40%), 0.7/0.7/0.70 (40% to below 50%),
1.2/1.1/0.55 (above 65%) and 1.0/1.0/0.60 otherwise; a total PnL below -10
further multiplies both multipliers by 0.6 and raises the threshold to at
least 0.75; in particular a 35% win rate with non-penalized PnL yields
0.5/0.5/0.75. -/
theorem getDynamicRiskAdjustment_spec (s : LearningStats) :
    (¬ s.total_pnl < -10 →
      ((s.win_rate < 40 →
          ((getDynamicRiskAdjustment s).leverage_multiplier,
            (getDynamicRiskAdjustment s).position_size_multiplier,
            (getDynamicRiskAdjustment s).confidence_threshold) =
            (0.5, 0.5, 0.75)) ∧
        (40 ≤ s.win_rate → s.win_rate < 50 →
          ((getDynamicRiskAdjustment s).leverage_multiplier,
            (getDynamicRiskAdjustment s).position_size_multiplier,
            (getDynamicRiskAdjustment s).confidence_threshold) =
            (0.7, 0.7, 0.7)) ∧
        (65 < s.win_rate →
          ((getDynamicRiskAdjustment s).leverage_multiplier,
            (getDynamicRiskAdjustment s).position_size_multiplier,
            (getDynamicRiskAdjustment s).confidence_threshold) =
            (1.2, 1.1, 0.55)) ∧
        (50 ≤ s.win_rate → s.win_rate ≤ 65 →
          ((getDynamicRiskAdjustment s).leverage_multiplier,
            (getDynamicRiskAdjustment s).position_size_multiplier,
            (getDynamicRiskAdjustment s).confidence_threshold) =
            (1.0, 1.0, 0.6)))) ∧
    (s.total_pnl < -10 →
      ((s.win_rate < 40 →
          ((getDynamicRiskAdjustment s).leverage_multiplier,
            (getDynamicRiskAdjustment s).position_size_multiplier,
            (getDynamicRiskAdjustment s).confidence_threshold) =
            (0.5 * 0.6, 0.5 * 0.6, max 0.75 0.75)) ∧
        (40 ≤ s.win_rate → s.win_rate < 50 →
          ((getDynamicRiskAdjustment s).leverage_multiplier,
            (getDynamicRiskAdjustment s).position_size_multiplier,
            (getDynamicRiskAdjustment s).confidence_threshold) =
            (0.7 * 0.6, 0.7 * 0.6, max 0.7 0.75)) ∧
        (65 < s.win_rate →
          ((getDynamicRiskAdjustment s).leverage_multiplier,
            (getDynamicRiskAdjustment s).position_size_multiplier,
            (getDynamicRiskAdjustment s).confidence_threshold) =
            (1.2 * 0.6, 1.1 * 0.6, max 0.55 0.75)) ∧
        (50 ≤ s.win_rate → s.win_rate ≤ 65 →
          ((getDynamicRiskAdjustment s).leverage_multiplier,
            (getDynamicRiskAdjustment s).position_size_multiplier,
            (getDynamicRiskAdjustment s).confidence_threshold) =
            (1.0 * 0.6, 1.0 * 0.6, max 0.6 0.75)) ∧
        0.75 ≤ (getDynamicRiskAdjustment s).confidence_threshold)) ∧
    (s.win_rate = 35 → ¬ s.total_pnl < -10 →
      ((getDynamicRiskAdjustment s).leverage_multiplier,
        (getDynamicRiskAdjustment s).position_size_multiplier,
        (getDynamicRiskAdjustment s).confidence_threshold) =
        (0.5, 0.5, 0.75)) := by
  simp only [getDynamicRiskAdjustment]
  refine ⟨fun hp => ⟨fun h1 => ?_, fun h2a h2b => ?_, fun h3 => ?_, fun h4a h4b => ?_⟩,
    fun hp => ⟨fun h1 => ?_, fun h2a h2b => ?_, fun h3 => ?_, fun h4a h4b => ?_, ?_⟩,
    fun h35 hp => ?_⟩ <;>
    split_ifs <;> (first | rfl | norm_num) <;> linarith

/-- C8 witness: the tier table applied to a 35% win rate with zero total
PnL. -/
theorem getDynamicRiskAdjustment_spec_witness :
    ((getDynamicRiskAdjustment ⟨35, 0⟩).leverage_multiplier,
      (getDynamicRiskAdjustment ⟨35, 0⟩).position_size_multiplier,
      (getDynamicRiskAdjustment ⟨35, 0⟩).confidence_threshold) =
      (0.5, 0.5, 0.75) :=
  (getDynamicRiskAdjustment_spec ⟨35, 0⟩).2.2 (by decide) (by decide)

/-- C9: session acquisition is single-flight — any number of calls to
`getBinanceInstance` starting from the fresh module state start exactly one
initialization, and every caller receives that same promise. -/
theorem getBinanceInstance_singleFlight (n : Nat) (hn : 1 ≤ n) :
    (runGetInstanceCalls n initialSessionState).1.initsStarted = 1 ∧
      (runGetInstanceCalls n initialSessionState).2 = List.replicate n 1 := by
  obtain ⟨m, rfl⟩ : ∃ m, n = m + 1 := ⟨n - 1, by omega⟩
  have key : ∀ (k : Nat) (s : SessionModuleState) (p : Nat),
      s.initializationPromise = some p →
      runGetInstanceCalls k s = (s, List.replicate k p) := by
    intro k
    induction k with
    | zero => intro s p _; simp [runGetInstanceCalls]
    | succ k ih =>
        intro s p hs
        simp only [runGetInstanceCalls, getBinanceInstance, hs]
        rw [ih s p hs]
        simp [List.replicate]
  simp only [runGetInstanceCalls, getBinanceInstance, initialSessionState]
  rw [key m { initializationPromise := some 1, initsStarted := 1 } 1 rfl]
  simp [List.replicate]

/-- C9 witness: three callers all receive promise 1 and only one
initialization is started. -/
theorem getBinanceInstance_singleFlight_witness :
    (runGetInstanceCalls 3 initialSessionState).1.initsStarted = 1 ∧
      (runGetInstanceCalls 3 initialSessionState).2 = List.replicate 3 1 :=
  getBinanceInstance_singleFlight 3 (by decide)

/-- A first-attempt success submits exactly once. -/
theorem orderSubmitLoop_firstOk (oa : Nat → Except ErrObj OrderData)
    (eff : Effect) (d : Nat → Nat) (od : OrderData) (h : oa 1 = .ok od) :
    orderSubmitLoop oa eff d 1 = (.ok od, [eff]) := by
  rw [orderSubmitLoop, h]

/-- Three straight submission failures submit three times, sleeping `d 1`
and `d 2` milliseconds between attempts, and propagate the third failure. -/
theorem orderSubmitLoop_allFail (oa : Nat → Except ErrObj OrderData)
    (eff : Effect) (d : Nat → Nat) (e1 e2 e3 : ErrObj)
    (h1 : oa 1 = .error e1) (h2 : oa 2 = .error e2) (h3 : oa 3 = .error e3) :
    orderSubmitLoop oa eff d 1 =
      (.error e3, [eff, .sleep (d 1), eff, .sleep (d 2), eff]) := by
  rw [orderSubmitLoop, h1]
  rw [orderSubmitLoop, h2]
  rw [orderSubmitLoop, h3]
  norm_num

/-- The submission effect always occurs in the retry loop's trace. -/
theorem orderSubmitLoop_mem (oa : Nat → Except ErrObj OrderData)
    (eff : Effect) (d : Nat → Nat) (attempt : Nat) :
    eff ∈ (orderSubmitLoop oa eff d attempt).2 := by
  rw [orderSubmitLoop]
  cases hoa : oa attempt with
  | ok od => simp
  | error e =>
      by_cases h : attempt < 3 <;> simp [h]

/-- One failed SL/TP attempt before the third sleeps (3s after the first,
5s later) and recurses. -/
theorem slTpRetryLoop_stepFail (f : Nat → Except ErrObj StopLossTakeProfitResult)
    (sym : String) (a : Nat) (ha : a < 3) (hfail : slTpAttemptFailed (f a)) :
    slTpRetryLoop f sym a =
      ((slTpRetryLoop f sym (a + 1)).1,
        Effect.slTpCall sym ::
          Effect.sleep (if a = 1 then 3000 else 5000) ::
          (slTpRetryLoop f sym (a + 1)).2) := by
  rw [slTpRetryLoop]
  cases hf : f a with
  | ok r =>
      rw [hf] at hfail
      simp only [slTpAttemptFailed] at hfail
      simp [hfail, ha]
  | error e =>
      simp [ha]

/-- A failed third SL/TP attempt ends the loop unsuccessfully. -/
theorem slTpRetryLoop_lastFail (f : Nat → Except ErrObj StopLossTakeProfitResult)
    (sym : String) (hfail : slTpAttemptFailed (f 3)) :
    slTpRetryLoop f sym 3 = (false, [Effect.slTpCall sym]) := by
  rw [slTpRetryLoop]
  cases hf : f 3 with
  | ok r =>
      rw [hf] at hfail
      simp only [slTpAttemptFailed] at hfail
      simp [hfail]
  | error e =>
      simp

/-- Three failed SL/TP attempts: the loop reports failure after calls
interleaved with 3s and 5s waits. -/
theorem slTpRetryLoop_allFail (f : Nat → Except ErrObj StopLossTakeProfitResult)
    (sym : String) (h1 : slTpAttemptFailed (f 1)) (h2 : slTpAttemptFailed (f 2))
    (h3 : slTpAttemptFailed (f 3)) :
    slTpRetryLoop f sym 1 =
      (false, [Effect.slTpCall sym, Effect.sleep 3000, Effect.slTpCall sym,
        Effect.sleep 5000, Effect.slTpCall sym]) := by
  rw [slTpRetryLoop_stepFail f sym 1 (by omega) h1]
  rw [slTpRetryLoop_stepFail f sym 2 (by omega) h2]
  rw [slTpRetryLoop_lastFail f sym h3]
  norm_num

/-- Rounding 1 whole BTC changes nothing (sell-side table). -/
theorem adjustPrecision_one_sell : Sell.adjustPrecision 1 "BTCUSDT" = 1 := by
  simp only [Sell.adjustPrecision, Sell.precisionFor, Sell.SYMBOL_PRECISION]
  norm_num [Int.floor_ofNat]

/-- Rounding 1 whole BTC changes nothing (buy-side table). -/
theorem adjustPrecision_one_biance : Biance.adjustPrecision 1 "BTCUSDT" = 1 := by
  simp only [Biance.adjustPrecision, Biance.precisionFor, Biance.SYMBOL_PRECISION]
  norm_num [Int.floor_ofNat]

/-- Rounding 0.0005 BTC at 3 decimals truncates to zero. -/
theorem adjustPrecision_small_biance :
    Biance.adjustPrecision (1 / 2000) "BTCUSDT" = 0 := by
  simp only [Biance.adjustPrecision, Biance.precisionFor, Biance.SYMBOL_PRECISION]
  norm_num

/-- The buy-side minimum amount for BTCUSDT is 0.001. -/
theorem minAmountFor_BTC : minAmountFor "BTCUSDT" = 1 / 1000 := by
  simp only [minAmountFor, Biance.SYMBOL_PRECISION, jsOrNat]
  norm_num

/-- The minimum amount is always positive. -/
theorem minAmountFor_pos (s : String) : 0 < minAmountFor s := by
  unfold minAmountFor
  positivity

/-- Precision rounding preserves nonnegativity. -/
theorem adjustPrecision_nonneg (x : ℚ) (s : String) (hx : 0 ≤ x) :
    0 ≤ Biance.adjustPrecision x s := by
  have hf : (0 : ℚ) < 10 ^ (Biance.precisionFor s).quantity := by positivity
  have : (0 : ℤ) ≤ ⌊x * 10 ^ (Biance.precisionFor s).quantity⌋ :=
    Int.le_floor.mpr (by positivity)
  unfold Biance.adjustPrecision
  positivity

/-- C10: whenever `buy` is called with a symbol missing the slash
separator, a non-positive amount, or a leverage outside [1, 30], it returns
an unsuccessful result carrying an error message and performs no exchange
interaction at all — the effect trace is empty. -/
theorem buy_localValidation (env : BuyEnv) (params : BuyParams)
    (h : params.symbol = "" ∨ jsIncludesSlash params.symbol = false ∨
      params.amount ≤ 0 ∨ params.leverage.getD 10 < 1 ∨
      30 < params.leverage.getD 10) :
    (buy env params).1.success = false ∧
      (buy env params).1.error.isSome = true ∧
      (buy env params).2 = [] := by
  have hv : ∃ msg, buyValidate params = some msg := by
    simp only [buyValidate]
    split_ifs with h1 h2 h3
    · exact ⟨_, rfl⟩
    · exact ⟨_, rfl⟩
    · exact ⟨_, rfl⟩
    · push_neg at h1 h2 h3
      rcases h with h | h | h | h | h
      · exact absurd h h1.1
      · exact absurd h1.2 (by simp [h])
      · exact absurd h (by linarith)
      · exact absurd h (by push_neg; exact h3.1)
      · exact absurd h (by push_neg; exact h3.2)
  obtain ⟨msg, hmsg⟩ := hv
  simp [buy, hmsg]

/-- C10 witness: a slashless symbol is rejected with an error and an empty
trace. -/
theorem buy_localValidation_witness :
    (buy buyEnvBase buyParamsBadSymbol).1.success = false ∧
      (buy buyEnvBase buyParamsBadSymbol).1.error.isSome = true ∧
      (buy buyEnvBase buyParamsBadSymbol).2 = [] :=
  buy_localValidation buyEnvBase buyParamsBadSymbol (by decide)

/-- C7: when every submission attempt of an exit order fails, `sell` makes
exactly 3 attempts carrying the identical precision-rounded quantity, waits
2s then 4s between them, and returns an unsuccessful result carrying the
third failure's exchange-reported message. -/
theorem sell_retryExhaustion (env : SellEnv) (params : SellParams) (a : ℚ)
    (e : Nat → ErrObj)
    (hsym0 : params.symbol ≠ "") (hsym : jsIncludesSlash params.symbol = true)
    (hpct1 : ¬ params.percentage.getD 100 ≤ 0)
    (hpct2 : ¬ params.percentage.getD 100 > 100)
    (hses : env.session = .ok ())
    (hamt : params.amount = some a) (ha : a ≠ 0) (hapos : ¬ a ≤ 0)
    (hprice : params.price = none)
    (hadj : ¬ Sell.adjustPrecision a (jsReplaceSlash params.symbol) = 0)
    (hfail : ∀ i, env.orderAttempt i = .error (e i)) :
    (sell env params).1 = { success := false,
                            error := some (jsOrStr (e 3).respMsg
                              (jsOrS (e 3).message
                                "Unknown error occurred during sell")) } ∧
      ((sell env params).2.filter Effect.isNewOrder) =
        List.replicate 3 (Effect.newOrder (jsReplaceSlash params.symbol) "SELL"
          "MARKET"
          { quantity := some (Sell.adjustPrecision a (jsReplaceSlash params.symbol)),
            reduceOnly := true }) ∧
      ((sell env params).2.filter Effect.isSleep) =
        [Effect.sleep 2000, Effect.sleep 4000] := by
  have hloop := orderSubmitLoop_allFail env.orderAttempt
    (Effect.newOrder (jsReplaceSlash params.symbol) "SELL" "MARKET"
      { quantity := some (Sell.adjustPrecision a (jsReplaceSlash params.symbol)),
        reduceOnly := true })
    (fun attempt => attempt * 2000) (e 1) (e 2) (e 3) (hfail 1) (hfail 2) (hfail 3)
  have hcond1 : ¬ (params.symbol = "" ∨ ¬ jsIncludesSlash params.symbol = true) := by
    push_neg
    exact ⟨hsym0, hsym⟩
  have hcond2 : ¬ (params.percentage.getD 100 ≤ 0 ∨
      params.percentage.getD 100 > 100) := by
    push_neg
    exact ⟨not_le.mp hpct1, not_lt.mp hpct2⟩
  have hta : jsTruthyOpt (some a) = true := by simp [jsTruthyOpt, ha]
  have htn : jsTruthyOpt (none : Option ℚ) = false := rfl
  simp only [sell, hses, hamt, hprice, hta, htn, if_neg hcond1, if_neg hcond2,
    Option.getD_some, if_true, if_false, if_neg hapos, if_neg hadj,
    Bool.false_eq_true, Bool.true_eq_false, ite_false, ite_true]
  rw [hloop]
  simp [Effect.isNewOrder, Effect.isSleep, List.filter, List.replicate]

/-- The fixture exit quantity of 1 BTC survives rounding. -/
theorem sellAdj_fixture : ¬ Sell.adjustPrecision 1 (jsReplaceSlash "BTC/USDT") = 0 := by
  rw [show jsReplaceSlash "BTC/USDT" = "BTCUSDT" by decide, adjustPrecision_one_sell]
  norm_num

/-- C7 witness: the exhausted-retry scenario at the concrete fixture — the
third failure's exchange message is returned after 3 identical submissions
with 2s and 4s waits. -/
theorem sell_retryExhaustion_witness :
    (sell sellEnvAllFail sellParamsBTC).1 =
        { success := false,
          error := some (jsOrStr (sellErr 3).respMsg
            (jsOrS (sellErr 3).message
              "Unknown error occurred during sell")) } ∧
      ((sell sellEnvAllFail sellParamsBTC).2.filter Effect.isNewOrder) =
        List.replicate 3 (Effect.newOrder (jsReplaceSlash sellParamsBTC.symbol)
          "SELL" "MARKET"
          { quantity := some (Sell.adjustPrecision 1
              (jsReplaceSlash sellParamsBTC.symbol)),
            reduceOnly := true }) ∧
      ((sell sellEnvAllFail sellParamsBTC).2.filter Effect.isSleep) =
        [Effect.sleep 2000, Effect.sleep 4000] :=
  sell_retryExhaustion sellEnvAllFail sellParamsBTC 1 sellErr
    (by decide) (by decide) (by decide) (by decide) rfl rfl (by decide)
    (by decide) rfl sellAdj_fixture (fun _ => rfl)

/-- A truthy stop price at or above the entry of a long position is rejected
by the stop-loss block before any order creation. -/
theorem slLeg_reject_long (env : SLTPEnv) (bs : String) (entry : ℚ)
    (ftp : Option ℚ) (sl : ℚ) (hsl : sl ≠ 0) (hge : sl ≥ entry) :
    slLeg env bs true entry (some sl) ftp =
      ({ success := false,
         error := some ("Stop loss price (" ++ toString sl ++
           ") must be below entry price (" ++ toString entry ++
           ") for long position") }, []) := by
  simp [slLeg, jsTruthyOpt, hsl, hge]

/-- A truthy stop price at or below the entry of a short position is
rejected by the stop-loss block before any order creation. -/
theorem slLeg_reject_short (env : SLTPEnv) (bs : String) (entry : ℚ)
    (ftp : Option ℚ) (sl : ℚ) (hsl : sl ≠ 0) (hle : sl ≤ entry) :
    slLeg env bs false entry (some sl) ftp =
      ({ success := false,
         error := some ("Stop loss price (" ++ toString sl ++
           ") must be above entry price (" ++ toString entry ++
           ") for short position") }, []) := by
  have : ¬ (sl ≥ entry ∧ False) := by simp
  simp [slLeg, jsTruthyOpt, hsl, hle]

/-- With no stop price the stop-loss block falls through to the take-profit
block. -/
theorem slLeg_none (env : SLTPEnv) (bs : String) (isLong : Bool) (entry : ℚ)
    (ftp : Option ℚ) :
    slLeg env bs isLong entry none ftp = tpLeg env bs isLong entry ftp none := by
  simp [slLeg, jsTruthyOpt]

/-- A valid stop price whose creation succeeds chains into the take-profit
block with the created order id. -/
theorem slLeg_ok (env : SLTPEnv) (bs : String) (isLong : Bool) (entry : ℚ)
    (ftp : Option ℚ) (sl : ℚ) (oid : String) (hsl : sl ≠ 0)
    (hv1 : ¬ (isLong = true ∧ sl ≥ entry))
    (hv2 : ¬ ((¬ isLong = true) ∧ sl ≤ entry))
    (hord : env.stopOrder = .ok oid) :
    slLeg env bs isLong entry (some sl) ftp =
      ((tpLeg env bs isLong entry ftp (some oid)).1,
        Effect.newOrder bs (if isLong then "SELL" else "BUY") "STOP_MARKET"
          { stopPrice := some sl, closePosition := true,
            positionSide := if env.positionMode = "DUAL_SIDE" then
              some (if isLong then "LONG" else "SHORT") else none } ::
          (tpLeg env bs isLong entry ftp (some oid)).2) := by
  simp [slLeg, jsTruthyOpt, hsl, hv1, hv2, hord]
  intro hL
  by_contra hcon
  push_neg at hcon
  exact hv2 ⟨by simp [hL], hcon⟩

/-- A valid stop price whose creation fails aborts the call with the
creation failure; the take-profit block is never reached. -/
theorem slLeg_fail (env : SLTPEnv) (bs : String) (isLong : Bool) (entry : ℚ)
    (ftp : Option ℚ) (sl : ℚ) (e : ErrObj) (hsl : sl ≠ 0)
    (hv1 : ¬ (isLong = true ∧ sl ≥ entry))
    (hv2 : ¬ ((¬ isLong = true) ∧ sl ≤ entry))
    (hord : env.stopOrder = .error e) :
    slLeg env bs isLong entry (some sl) ftp =
      ({ success := false,
         error := some ("Failed to create stop loss: " ++ errMsg e) },
        [Effect.newOrder bs (if isLong then "SELL" else "BUY") "STOP_MARKET"
          { stopPrice := some sl, closePosition := true,
            positionSide := if env.positionMode = "DUAL_SIDE" then
              some (if isLong then "LONG" else "SHORT") else none }]) := by
  simp [slLeg, jsTruthyOpt, hsl, hv1, hv2, hord]
  intro hL
  by_contra hcon
  push_neg at hcon
  exact hv2 ⟨by simp [hL], hcon⟩

/-- A truthy target at or below the entry of a long position is rejected by
the take-profit block before its order creation. -/
theorem tpLeg_reject_long (env : SLTPEnv) (bs : String) (entry : ℚ)
    (slid : Option String) (tp : ℚ) (htp : tp ≠ 0) (hle : tp ≤ entry) :
    tpLeg env bs true entry (some tp) slid =
      ({ success := false,
         error := some ("Take profit price (" ++ toString tp ++
           ") must be above entry price (" ++ toString entry ++
           ") for long position") }, []) := by
  simp [tpLeg, jsTruthyOpt, htp, hle]

/-- A truthy target at or above the entry of a short position is rejected by
the take-profit block before its order creation. -/
theorem tpLeg_reject_short (env : SLTPEnv) (bs : String) (entry : ℚ)
    (slid : Option String) (tp : ℚ) (htp : tp ≠ 0) (hge : tp ≥ entry) :
    tpLeg env bs false entry (some tp) slid =
      ({ success := false,
         error := some ("Take profit price (" ++ toString tp ++
           ") must be below entry price (" ++ toString entry ++
           ") for short position") }, []) := by
  simp [tpLeg, jsTruthyOpt, htp, hge]

/-- With no target the take-profit block succeeds vacuously, carrying the
stop-loss order id through. -/
theorem tpLeg_none (env : SLTPEnv) (bs : String) (isLong : Bool) (entry : ℚ)
    (slid : Option String) :
    tpLeg env bs isLong entry none slid =
      ({ success := true, stopLossOrderId := slid }, []) := by
  simp [tpLeg, jsTruthyOpt]

/-- A valid target whose creation succeeds completes the call
successfully with both order ids. -/
theorem tpLeg_ok (env : SLTPEnv) (bs : String) (isLong : Bool) (entry : ℚ)
    (slid : Option String) (tp : ℚ) (oid : String) (htp : tp ≠ 0)
    (hv1 : ¬ (isLong = true ∧ tp ≤ entry))
    (hv2 : ¬ ((¬ isLong = true) ∧ tp ≥ entry))
    (hord : env.tpOrder = .ok oid) :
    tpLeg env bs isLong entry (some tp) slid =
      ({ success := true, stopLossOrderId := slid,
         takeProfitOrderId := some oid },
        [Effect.newOrder bs (if isLong then "SELL" else "BUY")
          "TAKE_PROFIT_MARKET"
          { stopPrice := some tp, closePosition := true,
            positionSide := if env.positionMode = "DUAL_SIDE" then
              some (if isLong then "LONG" else "SHORT") else none }]) := by
  simp [tpLeg, jsTruthyOpt, htp, hv1, hv2, hord]
  intro hL
  by_contra hcon
  push_neg at hcon
  exact hv2 ⟨by simp [hL], hcon⟩

/-- A valid target whose creation fails ends the call with the take-profit
creation failure. -/
theorem tpLeg_fail (env : SLTPEnv) (bs : String) (isLong : Bool) (entry : ℚ)
    (slid : Option String) (tp : ℚ) (e : ErrObj) (htp : tp ≠ 0)
    (hv1 : ¬ (isLong = true ∧ tp ≤ entry))
    (hv2 : ¬ ((¬ isLong = true) ∧ tp ≥ entry))
    (hord : env.tpOrder = .error e) :
    tpLeg env bs isLong entry (some tp) slid =
      ({ success := false,
         error := some ("Failed to create take profit: " ++ errMsg e) },
        [Effect.newOrder bs (if isLong then "SELL" else "BUY")
          "TAKE_PROFIT_MARKET"
          { stopPrice := some tp, closePosition := true,
            positionSide := if env.positionMode = "DUAL_SIDE" then
              some (if isLong then "LONG" else "SHORT") else none }]) := by
  simp [tpLeg, jsTruthyOpt, htp, hv1, hv2, hord]
  intro hL
  by_contra hcon
  push_neg at hcon
  exact hv2 ⟨by simp [hL], hcon⟩

/-- Cleanup performs no order submission. -/
theorem cleanup_no_newOrder (env : SLTPEnv) (bs side : String) :
    ∀ eff ∈ (cancelStopLossTakeProfitForPosition env bs side).2,
      eff.isNewOrder = false := by
  intro eff h
  simp only [cancelStopLossTakeProfitForPosition] at h
  split at h <;> split at h <;>
    (first
      | (simp only [List.mem_cons, List.not_mem_nil, or_false] at h
         rcases h with rfl | rfl <;> rfl)
      | (simp only [List.append_eq, List.mem_append, List.mem_cons,
           List.not_mem_nil, or_false, List.mem_map] at h
         rcases h with (rfl | rfl) | ⟨o, _, rfl⟩ <;> rfl))

/-- Reduction of a `setStopLossTakeProfit` run with at least one explicitly
requested leg: the position is fetched, the final prices are derived without
any market-state fetch, stale orders are cleaned up with the settle wait,
and the two creation blocks run on the derived prices. -/
theorem sltp_reduceToLegs (env : SLTPEnv) (params : StopLossTakeProfitParams)
    (ps : List Position) (pos : Position) (fsl ftp : Option ℚ)
    (hsym0 : params.symbol ≠ "") (hsym : jsIncludesSlash params.symbol = true)
    (hses : env.session = .ok ())
    (hpos : env.positions = .ok ps)
    (hfind : ps.find? (fun p => p.symbol == jsReplaceSlash params.symbol) = some pos)
    (hc : ¬ pos.contracts = 0)
    (hgiven : jsTruthyOpt params.stopLoss = true ∨
      jsTruthyOpt params.takeProfit = true ∨
      jsTruthyOpt params.stopLossPercent = true ∨
      jsTruthyOpt params.takeProfitPercent = true)
    (hfsl : (if jsTruthyOpt params.stopLossPercent ∧ ¬ jsTruthyOpt params.stopLoss then
        some (if pos.side == "long" then
            pos.entryPrice * (1 - params.stopLossPercent.getD 0 / 100)
          else pos.entryPrice * (1 + params.stopLossPercent.getD 0 / 100))
      else params.stopLoss) = fsl)
    (hftp : (if jsTruthyOpt params.takeProfitPercent ∧ ¬ jsTruthyOpt params.takeProfit then
        some (if pos.side == "long" then
            pos.entryPrice * (1 + params.takeProfitPercent.getD 0 / 100)
          else pos.entryPrice * (1 - params.takeProfitPercent.getD 0 / 100))
      else params.takeProfit) = ftp) :
    setStopLossTakeProfit env params =
      ((slLeg env (jsReplaceSlash params.symbol) (pos.side == "long")
          pos.entryPrice fsl ftp).1,
        [Effect.acquireSession, Effect.fetchPositions] ++
          ((cancelStopLossTakeProfitForPosition env (jsReplaceSlash params.symbol)
              (if pos.side == "long" then "LONG" else "SHORT")).2 ++
            (if (cancelStopLossTakeProfitForPosition env
                  (jsReplaceSlash params.symbol)
                  (if pos.side == "long" then "LONG" else "SHORT")).1.canceledCount
                > 0 then
              [Effect.sleep 5000] else [Effect.sleep 1000])) ++
          (slLeg env (jsReplaceSlash params.symbol) (pos.side == "long")
            pos.entryPrice fsl ftp).2) := by
  have hcond1 : ¬ (params.symbol = "" ∨ ¬ jsIncludesSlash params.symbol = true) := by
    push_neg
    exact ⟨hsym0, hsym⟩
  have hng : ¬ (¬ jsTruthyOpt params.stopLoss = true ∧
      ¬ jsTruthyOpt params.takeProfit = true ∧
      ¬ jsTruthyOpt params.stopLossPercent = true ∧
      ¬ jsTruthyOpt params.takeProfitPercent = true) := by
    rcases hgiven with h | h | h | h <;> simp [h]
  simp only [setStopLossTakeProfit, if_neg hcond1, hses, hpos, hfind,
    if_neg hc, if_neg hng, hfsl, hftp, List.nil_append, List.append_nil,
    List.append_assoc]

/-- An effect that is not an order submission is not one of any order
type. -/
theorem isOrderOfType_false_of_isNewOrder_false (t : String) (eff : Effect)
    (h : eff.isNewOrder = false) : Effect.isOrderOfType t eff = false := by
  cases eff <;> simp_all [Effect.isNewOrder, Effect.isOrderOfType]

/-- C2 (amended): with both protective legs explicitly requested at valid
prices for a long position, a stop-loss creation failure is returned
immediately with that failure's message and the take-profit order is never
attempted; when the stop-loss creation succeeds, the call succeeds exactly
when the take-profit creation also succeeds, each failure carrying its own
leg's message. -/
theorem sltp_legsOutcome (env : SLTPEnv) (params : StopLossTakeProfitParams)
    (ps : List Position) (pos : Position) (sl tp : ℚ)
    (hsym0 : params.symbol ≠ "") (hsym : jsIncludesSlash params.symbol = true)
    (hses : env.session = .ok ())
    (hpos : env.positions = .ok ps)
    (hfind : ps.find? (fun p => p.symbol == jsReplaceSlash params.symbol) = some pos)
    (hc : ¬ pos.contracts = 0)
    (hside : pos.side = "long")
    (hsl : params.stopLoss = some sl) (hsl0 : sl ≠ 0)
    (hslv : sl < pos.entryPrice)
    (htp : params.takeProfit = some tp) (htp0 : tp ≠ 0)
    (htpv : pos.entryPrice < tp) :
    (∀ e', env.stopOrder = .error e' →
      (setStopLossTakeProfit env params).1 =
        { success := false,
          error := some ("Failed to create stop loss: " ++ errMsg e') } ∧
      ∀ eff ∈ (setStopLossTakeProfit env params).2,
        Effect.isOrderOfType "TAKE_PROFIT_MARKET" eff = false) ∧
    (∀ sid tid, env.stopOrder = .ok sid → env.tpOrder = .ok tid →
      (setStopLossTakeProfit env params).1 =
        { success := true, stopLossOrderId := some sid,
          takeProfitOrderId := some tid }) ∧
    (∀ sid e', env.stopOrder = .ok sid → env.tpOrder = .error e' →
      (setStopLossTakeProfit env params).1 =
        { success := false,
          error := some ("Failed to create take profit: " ++ errMsg e') }) := by
  have hisLong : (pos.side == "long") = true := by rw [hside]; rfl
  have hrun := sltp_reduceToLegs env params ps pos (some sl) (some tp)
    hsym0 hsym hses hpos hfind hc
    (Or.inl (by simp [jsTruthyOpt, hsl, hsl0]))
    (by simp [jsTruthyOpt, hsl, hsl0])
    (by simp [jsTruthyOpt, htp, htp0])
  rw [hisLong] at hrun
  have hv1 : ¬ ((true : Bool) = true ∧ sl ≥ pos.entryPrice) := by
    rintro ⟨-, h⟩
    exact absurd hslv (not_lt.mpr h)
  have hv2 : ¬ ((¬ (true : Bool) = true) ∧ sl ≤ pos.entryPrice) := by
    rintro ⟨h, -⟩
    exact h rfl
  have hw1 : ¬ ((true : Bool) = true ∧ tp ≤ pos.entryPrice) := by
    rintro ⟨-, h⟩
    exact absurd htpv (not_lt.mpr h)
  have hw2 : ¬ ((¬ (true : Bool) = true) ∧ tp ≥ pos.entryPrice) := by
    rintro ⟨h, -⟩
    exact h rfl
  refine ⟨?_, ?_, ?_⟩
  · intro e' hord
    have hlegs := slLeg_fail env (jsReplaceSlash params.symbol) true
      pos.entryPrice (some tp) sl e' hsl0 hv1 hv2 hord
    rw [hrun, hlegs]
    refine ⟨rfl, ?_⟩
    intro eff heff
    simp only [List.mem_append, List.mem_cons, List.not_mem_nil, or_false] at heff
    rcases heff with ((rfl | rfl) | h | h) | rfl
    · rfl
    · rfl
    · exact isOrderOfType_false_of_isNewOrder_false _ _
        (cleanup_no_newOrder env _ _ eff h)
    · split at h <;> split at h <;>
        (simp only [List.mem_cons, List.not_mem_nil, or_false] at h
         subst h
         rfl)
    · rfl
  · intro sid tid hord htord
    have htleg := tpLeg_ok env (jsReplaceSlash params.symbol) true
      pos.entryPrice (some sid) tp tid htp0 hw1 hw2 htord
    have hlegs := slLeg_ok env (jsReplaceSlash params.symbol) true
      pos.entryPrice (some tp) sl sid hsl0 hv1 hv2 hord
    rw [hrun, hlegs, htleg]
  · intro sid e' hord htord
    have htleg := tpLeg_fail env (jsReplaceSlash params.symbol) true
      pos.entryPrice (some sid) tp e' htp0 hw1 hw2 htord
    have hlegs := slLeg_ok env (jsReplaceSlash params.symbol) true
      pos.entryPrice (some tp) sl sid hsl0 hv1 hv2 hord
    rw [hrun, hlegs, htleg]

/-- C2 counterexample: with both legs requested at valid prices (long from
100, stop 90, target 110), a stop-loss creation failure makes the call
return unsuccessfully while no TAKE_PROFIT_MARKET order is ever attempted —
the stop-loss failure does block the take-profit leg. -/
theorem sltp_slFail_counterexample :
    (setStopLossTakeProfit sltpEnvSLFail sltpParamsBoth).1.success = false ∧
      jsTruthyOpt sltpParamsBoth.takeProfit = true ∧
      ((setStopLossTakeProfit sltpEnvSLFail sltpParamsBoth).2.filter
        (Effect.isOrderOfType "TAKE_PROFIT_MARKET")) = [] := by
  decide

/-- C2 witness: the leg-outcome characterization instantiated at the
concrete long position and both-leg request. -/
theorem sltp_legsOutcome_witness :
    (∀ e', sltpEnvOk.stopOrder = .error e' →
      (setStopLossTakeProfit sltpEnvOk sltpParamsBoth).1 =
        { success := false,
          error := some ("Failed to create stop loss: " ++ errMsg e') } ∧
      ∀ eff ∈ (setStopLossTakeProfit sltpEnvOk sltpParamsBoth).2,
        Effect.isOrderOfType "TAKE_PROFIT_MARKET" eff = false) ∧
    (∀ sid tid, sltpEnvOk.stopOrder = .ok sid → sltpEnvOk.tpOrder = .ok tid →
      (setStopLossTakeProfit sltpEnvOk sltpParamsBoth).1 =
        { success := true, stopLossOrderId := some sid,
          takeProfitOrderId := some tid }) ∧
    (∀ sid e', sltpEnvOk.stopOrder = .ok sid → sltpEnvOk.tpOrder = .error e' →
      (setStopLossTakeProfit sltpEnvOk sltpParamsBoth).1 =
        { success := false,
          error := some ("Failed to create take profit: " ++ errMsg e') }) :=
  sltp_legsOutcome sltpEnvOk sltpParamsBoth [posLongBTC] posLongBTC 90 110
    (by decide) (by decide) rfl rfl (by decide) (by decide) rfl rfl
    (by decide) (by decide) rfl (by decide) (by decide)

/-- C4 (amended): `setStopLossTakeProfit` rejects a stop at or above entry
for a long position (and at or below entry for a short), and a target at or
below entry for a long (at or above for a short), each with a descriptive
error, and for a rejected request no creation order is ever sent — but the
rejection comes only after the position fetch and the stale-order cleanup,
both of which are exchange calls. -/
theorem sltp_directionValidation (env : SLTPEnv)
    (params : StopLossTakeProfitParams) (ps : List Position) (pos : Position)
    (hsym0 : params.symbol ≠ "") (hsym : jsIncludesSlash params.symbol = true)
    (hses : env.session = .ok ())
    (hpos : env.positions = .ok ps)
    (hfind : ps.find? (fun p => p.symbol == jsReplaceSlash params.symbol) = some pos)
    (hc : ¬ pos.contracts = 0) :
    (∀ sl, pos.side = "long" → params.stopLoss = some sl → sl ≠ 0 →
      sl ≥ pos.entryPrice →
      (setStopLossTakeProfit env params).1 =
        { success := false,
          error := some ("Stop loss price (" ++ toString sl ++
            ") must be below entry price (" ++ toString pos.entryPrice ++
            ") for long position") } ∧
      ∀ eff ∈ (setStopLossTakeProfit env params).2, eff.isNewOrder = false) ∧
    (∀ sl, pos.side = "short" → params.stopLoss = some sl → sl ≠ 0 →
      sl ≤ pos.entryPrice →
      (setStopLossTakeProfit env params).1 =
        { success := false,
          error := some ("Stop loss price (" ++ toString sl ++
            ") must be above entry price (" ++ toString pos.entryPrice ++
            ") for short position") } ∧
      ∀ eff ∈ (setStopLossTakeProfit env params).2, eff.isNewOrder = false) ∧
    (∀ tp, pos.side = "long" → params.stopLoss = none →
      params.stopLossPercent = none → params.takeProfit = some tp → tp ≠ 0 →
      tp ≤ pos.entryPrice →
      (setStopLossTakeProfit env params).1 =
        { success := false,
          error := some ("Take profit price (" ++ toString tp ++
            ") must be above entry price (" ++ toString pos.entryPrice ++
            ") for long position") } ∧
      ∀ eff ∈ (setStopLossTakeProfit env params).2, eff.isNewOrder = false) ∧
    (∀ tp, pos.side = "short" → params.stopLoss = none →
      params.stopLossPercent = none → params.takeProfit = some tp → tp ≠ 0 →
      tp ≥ pos.entryPrice →
      (setStopLossTakeProfit env params).1 =
        { success := false,
          error := some ("Take profit price (" ++ toString tp ++
            ") must be below entry price (" ++ toString pos.entryPrice ++
            ") for short position") } ∧
      ∀ eff ∈ (setStopLossTakeProfit env params).2, eff.isNewOrder = false) := by
  refine ⟨?_, ?_, ?_, ?_⟩
  · intro sl hside hsl hsl0 hbad
    have hisLong : (pos.side == "long") = true := by rw [hside]; rfl
    have hrun := sltp_reduceToLegs env params ps pos (some sl) _
      hsym0 hsym hses hpos hfind hc
      (Or.inl (by simp [jsTruthyOpt, hsl, hsl0]))
      (by simp [jsTruthyOpt, hsl, hsl0]) rfl
    rw [hisLong] at hrun
    rw [hrun, slLeg_reject_long env (jsReplaceSlash params.symbol)
      pos.entryPrice _ sl hsl0 hbad]
    refine ⟨rfl, ?_⟩
    intro eff heff
    simp only [List.append_nil, List.mem_append, List.mem_cons,
      List.not_mem_nil, or_false] at heff
    rcases heff with (rfl | rfl) | h | h
    · rfl
    · rfl
    · exact cleanup_no_newOrder env _ _ eff h
    · split at h <;> split at h <;>
        (simp only [List.mem_cons, List.not_mem_nil, or_false] at h
         subst h
         rfl)
  · intro sl hside hsl hsl0 hbad
    have hisLong : (pos.side == "long") = false := by rw [hside]; rfl
    have hrun := sltp_reduceToLegs env params ps pos (some sl) _
      hsym0 hsym hses hpos hfind hc
      (Or.inl (by simp [jsTruthyOpt, hsl, hsl0]))
      (by simp [jsTruthyOpt, hsl, hsl0]) rfl
    rw [hisLong] at hrun
    rw [hrun, slLeg_reject_short env (jsReplaceSlash params.symbol)
      pos.entryPrice _ sl hsl0 hbad]
    refine ⟨rfl, ?_⟩
    intro eff heff
    simp only [List.append_nil, List.mem_append, List.mem_cons,
      List.not_mem_nil, or_false] at heff
    rcases heff with (rfl | rfl) | h | h
    · rfl
    · rfl
    · exact cleanup_no_newOrder env _ _ eff h
    · split at h <;> split at h <;>
        (simp only [List.mem_cons, List.not_mem_nil, or_false] at h
         subst h
         rfl)
  · intro tp hside hsl hslp htp htp0 hbad
    have hisLong : (pos.side == "long") = true := by rw [hside]; rfl
    have hrun := sltp_reduceToLegs env params ps pos none (some tp)
      hsym0 hsym hses hpos hfind hc
      (Or.inr (Or.inl (by simp [jsTruthyOpt, htp, htp0])))
      (by simp [jsTruthyOpt, hslp, hsl])
      (by simp [jsTruthyOpt, htp, htp0])
    rw [hisLong] at hrun
    have hlegs : slLeg env (jsReplaceSlash params.symbol) true pos.entryPrice
        none (some tp) =
        ({ success := false,
           error := some ("Take profit price (" ++ toString tp ++
             ") must be above entry price (" ++ toString pos.entryPrice ++
             ") for long position") }, []) := by
      rw [slLeg_none, tpLeg_reject_long env (jsReplaceSlash params.symbol)
        pos.entryPrice none tp htp0 hbad]
    rw [hrun, hlegs]
    refine ⟨rfl, ?_⟩
    intro eff heff
    simp only [List.append_nil, List.mem_append, List.mem_cons,
      List.not_mem_nil, or_false] at heff
    rcases heff with (rfl | rfl) | h | h
    · rfl
    · rfl
    · exact cleanup_no_newOrder env _ _ eff h
    · split at h <;> split at h <;>
        (simp only [List.mem_cons, List.not_mem_nil, or_false] at h
         subst h
         rfl)
  · intro tp hside hsl hslp htp htp0 hbad
    have hisLong : (pos.side == "long") = false := by rw [hside]; rfl
    have hrun := sltp_reduceToLegs env params ps pos none (some tp)
      hsym0 hsym hses hpos hfind hc
      (Or.inr (Or.inl (by simp [jsTruthyOpt, htp, htp0])))
      (by simp [jsTruthyOpt, hslp, hsl])
      (by simp [jsTruthyOpt, htp, htp0])
    rw [hisLong] at hrun
    have hlegs : slLeg env (jsReplaceSlash params.symbol) false pos.entryPrice
        none (some tp) =
        ({ success := false,
           error := some ("Take profit price (" ++ toString tp ++
             ") must be below entry price (" ++ toString pos.entryPrice ++
             ") for short position") }, []) := by
      rw [slLeg_none, tpLeg_reject_short env (jsReplaceSlash params.symbol)
        pos.entryPrice none tp htp0 hbad]
    rw [hrun, hlegs]
    refine ⟨rfl, ?_⟩
    intro eff heff
    simp only [List.append_nil, List.mem_append, List.mem_cons,
      List.not_mem_nil, or_false] at heff
    rcases heff with (rfl | rfl) | h | h
    · rfl
    · rfl
    · exact cleanup_no_newOrder env _ _ eff h
    · split at h <;> split at h <;>
        (simp only [List.mem_cons, List.not_mem_nil, or_false] at h
         subst h
         rfl)

/-- C4 counterexample: a long position entered at 100 with a requested stop
of 120 is rejected with the descriptive error, yet the call has already
made exchange calls — the position fetch and the cleanup's open-order
listing — before that rejection, so the rejection does not precede every
exchange call. -/
theorem sltp_badStop_counterexample :
    (setStopLossTakeProfit sltpEnvOk sltpParamsBadStop).1.success = false ∧
      (setStopLossTakeProfit sltpEnvOk sltpParamsBadStop).1.error =
        some "Stop loss price (120) must be below entry price (100) for long position" ∧
      Effect.fetchPositions ∈ (setStopLossTakeProfit sltpEnvOk sltpParamsBadStop).2 ∧
      Effect.fetchOpenOrders "BTCUSDT" ∈
        (setStopLossTakeProfit sltpEnvOk sltpParamsBadStop).2 := by
  decide

/-- C4 witness: the direction-validation characterization instantiated at
the concrete long position. -/
theorem sltp_directionValidation_witness :
    (setStopLossTakeProfit sltpEnvOk sltpParamsBadStop).1 =
        { success := false,
          error := some ("Stop loss price (" ++ toString (120 : ℚ) ++
            ") must be below entry price (" ++ toString (100 : ℚ) ++
            ") for long position") } ∧
      ∀ eff ∈ (setStopLossTakeProfit sltpEnvOk sltpParamsBadStop).2,
        eff.isNewOrder = false :=
  (sltp_directionValidation sltpEnvOk sltpParamsBadStop [posLongBTC] posLongBTC
    (by decide) (by decide) rfl rfl (by decide) (by decide)).1
    120 rfl rfl (by decide) (by decide)

/-- Run of the `buy` try block for a market order whose rounded quantity is
acceptable as-is (no auto-scaling), in one-way position mode, with the entry
filling on the first attempt: the result reports the fill and carries no
error, independently of the SL/TP attempts, whose calls only extend the
trace. -/
theorem buyCore_entryOk_run (env : BuyEnv) (params : BuyParams)
    (od : OrderData) (p : ℚ)
    (hses : env.session = .ok ())
    (hprice : params.price = none)
    (hmark : env.markPrice = .ok p)
    (hmode : ¬ env.positionMode = "DUAL_SIDE")
    (hadj0 : ¬ Biance.adjustPrecision params.amount (jsReplaceSlash params.symbol) = 0)
    (hadjmin : ¬ Biance.adjustPrecision params.amount (jsReplaceSlash params.symbol) <
      minAmountFor (jsReplaceSlash params.symbol))
    (hadjpos : ¬ Biance.adjustPrecision params.amount (jsReplaceSlash params.symbol) ≤ 0)
    (hatt : env.orderAttempt 1 = .ok od) :
    buyCore env params =
      ({ success := true, orderId := od.orderId,
         executedPrice := some (od.avgPrice.getD (od.price.getD 0)),
         executedAmount := some (od.executedQty.getD (od.origQty.getD 0)),
         error := none },
       [Effect.acquireSession, Effect.timeSync,
        Effect.markPriceFetch (jsReplaceSlash params.symbol),
        Effect.setLeverage (jsReplaceSlash params.symbol) (params.leverage.getD 10),
        Effect.getPositionModeCall,
        Effect.newOrder (jsReplaceSlash params.symbol) "BUY" "MARKET"
          { quantity := some (Biance.adjustPrecision params.amount
              (jsReplaceSlash params.symbol)) }] ++
        (if params.autoSetStopLoss.getD true then
          Effect.sleep 8000 :: (slTpRetryLoop env.slTpAttempt params.symbol 1).2
        else [])) := by
  have htn : jsTruthyOpt (none : Option ℚ) = false := rfl
  have hscale : ¬ (Biance.adjustPrecision params.amount
        (jsReplaceSlash params.symbol) = 0 ∨
      Biance.adjustPrecision params.amount (jsReplaceSlash params.symbol) <
        minAmountFor (jsReplaceSlash params.symbol)) := by
    push_neg
    exact ⟨hadj0, not_lt.mp hadjmin⟩
  have hsafety : ¬ (Biance.adjustPrecision params.amount
        (jsReplaceSlash params.symbol) ≤ 0 ∨
      Biance.adjustPrecision params.amount (jsReplaceSlash params.symbol) <
        minAmountFor (jsReplaceSlash params.symbol)) := by
    push_neg
    exact ⟨not_le.mp hadjpos, not_lt.mp hadjmin⟩
  have hloop := orderSubmitLoop_firstOk env.orderAttempt
    (Effect.newOrder (jsReplaceSlash params.symbol) "BUY" "MARKET"
      { quantity := some (Biance.adjustPrecision params.amount
          (jsReplaceSlash params.symbol)),
        positionSide := none, price := none, timeInForce := none })
    (fun attempt => attempt * 3000) od hatt
  simp only [buyCore, hses, hprice, hmark, htn, if_neg hscale, if_neg hsafety,
    if_neg hmode, Bool.false_eq_true, ite_false, ite_true, checkMinNotional,
    false_and, and_false, if_false]
  rw [hloop]
  simp

/-- Concrete rounding fact for the 1 BTC fixture. -/
theorem buyParamsBTC_adj :
    Biance.adjustPrecision buyParamsBTC.amount
      (jsReplaceSlash buyParamsBTC.symbol) = 1 := by
  show Biance.adjustPrecision 1 (jsReplaceSlash "BTC/USDT") = 1
  rw [show jsReplaceSlash "BTC/USDT" = "BTCUSDT" by decide,
    adjustPrecision_one_biance]

/-- Concrete minimum for the fixture symbol. -/
theorem buyParamsBTC_min :
    minAmountFor (jsReplaceSlash buyParamsBTC.symbol) = 1 / 1000 := by
  show minAmountFor (jsReplaceSlash "BTC/USDT") = 1 / 1000
  rw [show jsReplaceSlash "BTC/USDT" = "BTCUSDT" by decide, minAmountFor_BTC]

/-- C1 (amended): when the entry order fills but every SL/TP setup attempt
fails, `buy` still returns success with no error field — the protection
failure is reported nowhere in the returned value, although the trace shows
the three failed protection attempts. -/
theorem buy_protectionFailureSilent (env : BuyEnv) (params : BuyParams)
    (od : OrderData) (p : ℚ)
    (hval : buyValidate params = none)
    (hses : env.session = .ok ())
    (hprice : params.price = none)
    (hmark : env.markPrice = .ok p)
    (hmode : ¬ env.positionMode = "DUAL_SIDE")
    (hadj0 : ¬ Biance.adjustPrecision params.amount (jsReplaceSlash params.symbol) = 0)
    (hadjmin : ¬ Biance.adjustPrecision params.amount (jsReplaceSlash params.symbol) <
      minAmountFor (jsReplaceSlash params.symbol))
    (hadjpos : ¬ Biance.adjustPrecision params.amount (jsReplaceSlash params.symbol) ≤ 0)
    (hatt : env.orderAttempt 1 = .ok od)
    (hauto : params.autoSetStopLoss.getD true = true)
    (hfail : ∀ i, slTpAttemptFailed (env.slTpAttempt i)) :
    (buy env params).1.success = true ∧
      (buy env params).1.error = none ∧
      ((buy env params).2.filter
        (fun eff => eff == Effect.slTpCall params.symbol)) =
        List.replicate 3 (Effect.slTpCall params.symbol) := by
  have hrun := buyCore_entryOk_run env params od p hses hprice hmark hmode
    hadj0 hadjmin hadjpos hatt
  have hloop := slTpRetryLoop_allFail env.slTpAttempt params.symbol
    (hfail 1) (hfail 2) (hfail 3)
  simp only [buy, hval]
  rw [hrun]
  simp only [hauto, if_true, hloop]
  simp [List.filter_cons, List.filter_append, beq_iff_eq, List.replicate]

/-- C1 counterexample: with the same parameters and the same first-attempt
fill, the environment where every SL/TP setup attempt fails yields a result
identical to the one where protection succeeds — success with no error —
so the returned value does not distinguish the partial failure from full
success. -/
theorem buy_protectionFailure_counterexample :
    (buy buyEnvBase buyParamsBTC).1 = (buy buyEnvProtFail buyParamsBTC).1 ∧
      (buy buyEnvProtFail buyParamsBTC).1.success = true ∧
      (buy buyEnvProtFail buyParamsBTC).1.error = none ∧
      (∀ i, slTpAttemptFailed (buyEnvProtFail.slTpAttempt i)) ∧
      buyEnvBase.slTpAttempt 1 =
        .ok { success := true, stopLossOrderId := some "7",
              takeProfitOrderId := some "8" } := by
  have hadj := buyParamsBTC_adj
  have hmin := buyParamsBTC_min
  have run1 := buyCore_entryOk_run buyEnvBase buyParamsBTC odBTC 100 rfl rfl
    rfl (by decide) (by rw [hadj]; norm_num) (by rw [hadj, hmin]; norm_num)
    (by rw [hadj]; norm_num) rfl
  have run2 := buyCore_entryOk_run buyEnvProtFail buyParamsBTC odBTC 100 rfl
    rfl rfl (by decide) (by rw [hadj]; norm_num) (by rw [hadj, hmin]; norm_num)
    (by rw [hadj]; norm_num) rfl
  have hv : buyValidate buyParamsBTC = none := by decide
  refine ⟨?_, ?_, ?_, fun i => rfl, rfl⟩
  · simp only [buy, hv]
    rw [run1, run2]
  · simp only [buy, hv]
    rw [run2]
  · simp only [buy, hv]
    rw [run2]

/-- The fixture's rounded quantity is nonzero. -/
theorem buyParamsBTC_adj_ne :
    ¬ Biance.adjustPrecision buyParamsBTC.amount
      (jsReplaceSlash buyParamsBTC.symbol) = 0 := by
  rw [buyParamsBTC_adj]
  norm_num

/-- The fixture's rounded quantity is not below the minimum. -/
theorem buyParamsBTC_adj_min :
    ¬ Biance.adjustPrecision buyParamsBTC.amount
        (jsReplaceSlash buyParamsBTC.symbol) <
      minAmountFor (jsReplaceSlash buyParamsBTC.symbol) := by
  rw [buyParamsBTC_adj, buyParamsBTC_min]
  norm_num

/-- The fixture's rounded quantity is positive. -/
theorem buyParamsBTC_adj_pos :
    ¬ Biance.adjustPrecision buyParamsBTC.amount
      (jsReplaceSlash buyParamsBTC.symbol) ≤ 0 := by
  rw [buyParamsBTC_adj]
  norm_num

/-- C1 witness: the silent-protection-failure theorem at the concrete
fixture — entry fills, all three protection attempts fail, and the result
still reads success with no error. -/
theorem buy_protectionFailureSilent_witness :
    (buy buyEnvProtFail buyParamsBTC).1.success = true ∧
      (buy buyEnvProtFail buyParamsBTC).1.error = none ∧
      ((buy buyEnvProtFail buyParamsBTC).2.filter
        (fun eff => eff == Effect.slTpCall buyParamsBTC.symbol)) =
        List.replicate 3 (Effect.slTpCall buyParamsBTC.symbol) :=
  buy_protectionFailureSilent buyEnvProtFail buyParamsBTC odBTC 100
    (by decide) rfl rfl rfl (by decide)
    buyParamsBTC_adj_ne buyParamsBTC_adj_min buyParamsBTC_adj_pos
    rfl rfl (fun i => rfl)

/-- C3: for an auto-scaled market entry (rounded quantity below the
symbol's minimum), the suggested leverage is capped at 30 by construction;
when the size multiplier is at most 20 the scaled order is accepted — the
leverage set on the exchange is the capped suggestion and the submitted
quantity is the minimum amount; otherwise `buy` fails with the explicit
skip-this-trade error and issues no order to the exchange. -/
theorem buy_autoScale_spec (env : BuyEnv) (params : BuyParams) (p : ℚ)
    (hval : buyValidate params = none)
    (hses : env.session = .ok ())
    (hprice : params.price = none)
    (hmark : env.markPrice = .ok p)
    (hmode : ¬ env.positionMode = "DUAL_SIDE")
    (htrig : Biance.adjustPrecision params.amount (jsReplaceSlash params.symbol) = 0 ∨
      Biance.adjustPrecision params.amount (jsReplaceSlash params.symbol) <
        minAmountFor (jsReplaceSlash params.symbol)) :
    min (params.leverage.getD 10 *
        ((⌈minAmountFor (jsReplaceSlash params.symbol) * p /
          (params.amount * p)⌉ : ℤ) : ℚ)) 30 ≤ 30 ∧
    (((⌈minAmountFor (jsReplaceSlash params.symbol) * p /
        (params.amount * p)⌉ : ℤ) : ℚ) ≤ 20 →
      Effect.setLeverage (jsReplaceSlash params.symbol)
          (min (params.leverage.getD 10 *
            ((⌈minAmountFor (jsReplaceSlash params.symbol) * p /
              (params.amount * p)⌉ : ℤ) : ℚ)) 30) ∈ (buy env params).2 ∧
        Effect.newOrder (jsReplaceSlash params.symbol) "BUY" "MARKET"
          { quantity := some (minAmountFor (jsReplaceSlash params.symbol)) } ∈
          (buy env params).2) ∧
    (¬ (((⌈minAmountFor (jsReplaceSlash params.symbol) * p /
        (params.amount * p)⌉ : ℤ) : ℚ) ≤ 20) →
      (buy env params).1 =
        { success := false,
          error := some ("Amount " ++ toString params.amount ++
            " too small. Minimum for " ++ params.symbol ++ " is " ++
            toString (minAmountFor (jsReplaceSlash params.symbol)) ++
            ". Suggested leverage " ++
            toString (min (params.leverage.getD 10 *
              ((⌈minAmountFor (jsReplaceSlash params.symbol) * p /
                (params.amount * p)⌉ : ℤ) : ℚ)) 30) ++
            "x exceeds safe limit 30x - SKIP THIS TRADE.") } ∧
      ∀ eff ∈ (buy env params).2, eff.isNewOrder = false) := by
  have htn : jsTruthyOpt (none : Option ℚ) = false := rfl
  have hminpos := minAmountFor_pos (jsReplaceSlash params.symbol)
  have hsafety : ¬ (minAmountFor (jsReplaceSlash params.symbol) ≤ 0 ∨
      minAmountFor (jsReplaceSlash params.symbol) <
        minAmountFor (jsReplaceSlash params.symbol)) := by
    push_neg
    exact ⟨hminpos, le_refl _⟩
  refine ⟨min_le_right _ _, ?_, ?_⟩
  · intro hmult
    have hcond : min (params.leverage.getD 10 *
          ((⌈minAmountFor (jsReplaceSlash params.symbol) * p /
            (params.amount * p)⌉ : ℤ) : ℚ)) 30 ≤ 30 ∧
        ((⌈minAmountFor (jsReplaceSlash params.symbol) * p /
          (params.amount * p)⌉ : ℤ) : ℚ) ≤ 20 :=
      ⟨min_le_right _ _, hmult⟩
    have hm := orderSubmitLoop_mem env.orderAttempt
      (Effect.newOrder (jsReplaceSlash params.symbol) "BUY" "MARKET"
        { quantity := some (minAmountFor (jsReplaceSlash params.symbol)),
          positionSide := none, price := none, timeInForce := none })
      (fun attempt => attempt * 3000) 1
    simp only [buy, hval, buyCore, hses, hprice, hmark, htn, if_pos htrig,
      if_pos hcond, if_neg hsafety, if_neg hmode, Bool.false_eq_true,
      ite_false, ite_true, checkMinNotional, false_and, and_false, if_false]
    constructor
    · cases hsub : (orderSubmitLoop env.orderAttempt
          (Effect.newOrder (jsReplaceSlash params.symbol) "BUY" "MARKET"
            { quantity := some (minAmountFor (jsReplaceSlash params.symbol)),
              positionSide := none, price := none, timeInForce := none })
          (fun attempt => attempt * 3000) 1).1 with
      | error e => simp [hsub]
      | ok od => simp [hsub]
    · cases hsub : (orderSubmitLoop env.orderAttempt
          (Effect.newOrder (jsReplaceSlash params.symbol) "BUY" "MARKET"
            { quantity := some (minAmountFor (jsReplaceSlash params.symbol)),
              positionSide := none, price := none, timeInForce := none })
          (fun attempt => attempt * 3000) 1).1 with
      | error e => simp [hsub, hm]
      | ok od => simp [hsub, hm]
  · intro hmult
    have hcond : ¬ (min (params.leverage.getD 10 *
          ((⌈minAmountFor (jsReplaceSlash params.symbol) * p /
            (params.amount * p)⌉ : ℤ) : ℚ)) 30 ≤ 30 ∧
        ((⌈minAmountFor (jsReplaceSlash params.symbol) * p /
          (params.amount * p)⌉ : ℤ) : ℚ) ≤ 20) :=
      fun h => hmult h.2
    simp only [buy, hval, buyCore, hses, hprice, hmark, htn, if_pos htrig,
      if_neg hcond, Bool.false_eq_true, ite_false, ite_true]
    refine ⟨by trivial, ?_⟩
    intro eff heff
    simp only [List.mem_append, List.mem_cons, List.not_mem_nil, or_false] at heff
    rcases heff with (rfl | rfl) | rfl
    · rfl
    · rfl
    · rfl

/-- The small fixture passes local validation. -/
theorem buyValidate_small : buyValidate buyParamsSmall = none := by
  have h1 : ¬ (buyParamsSmall.symbol = "" ∨
      ¬ jsIncludesSlash buyParamsSmall.symbol = true) := by decide
  have h2 : ¬ buyParamsSmall.amount ≤ 0 := by
    show ¬ (1 / 2000 : ℚ) ≤ 0
    norm_num
  have h3 : ¬ (buyParamsSmall.leverage.getD 10 < 1 ∨
      buyParamsSmall.leverage.getD 10 > 30) := by
    show ¬ ((10 : ℚ) < 1 ∨ (10 : ℚ) > 30)
    norm_num
  simp only [buyValidate, if_neg h1, if_neg h2, if_neg h3]

/-- Rounding 0.0005 BTC truncates to zero, triggering auto-scaling. -/
theorem buyParamsSmall_adj :
    Biance.adjustPrecision buyParamsSmall.amount
      (jsReplaceSlash buyParamsSmall.symbol) = 0 := by
  show Biance.adjustPrecision (1 / 2000) (jsReplaceSlash "BTC/USDT") = 0
  rw [show jsReplaceSlash "BTC/USDT" = "BTCUSDT" by decide,
    adjustPrecision_small_biance]

/-- The suggested size multiplier for the small fixture is 2. -/
theorem buyParamsSmall_ceil :
    (⌈minAmountFor (jsReplaceSlash buyParamsSmall.symbol) * 100 /
      (buyParamsSmall.amount * 100)⌉ : ℤ) = 2 := by
  have h : minAmountFor (jsReplaceSlash buyParamsSmall.symbol) = 1 / 1000 := by
    show minAmountFor (jsReplaceSlash "BTC/USDT") = 1 / 1000
    rw [show jsReplaceSlash "BTC/USDT" = "BTCUSDT" by decide, minAmountFor_BTC]
  rw [h]
  show (⌈(1 / 1000 : ℚ) * 100 / (1 / 2000 * 100)⌉ : ℤ) = 2
  norm_num

/-- The small fixture's multiplier is within the 20x cap. -/
theorem buyParamsSmall_mult_le :
    ((⌈minAmountFor (jsReplaceSlash buyParamsSmall.symbol) * 100 /
      (buyParamsSmall.amount * 100)⌉ : ℤ) : ℚ) ≤ 20 := by
  rw [buyParamsSmall_ceil]
  norm_num

/-- C3 witness: the 0.0005 BTC at 10x fixture is auto-scaled and accepted —
the leverage sent to the exchange is min(10·2, 30) = 20 and the submitted
quantity is the minimum amount. -/
theorem buy_autoScale_spec_witness :
    Effect.setLeverage (jsReplaceSlash buyParamsSmall.symbol)
        (min (buyParamsSmall.leverage.getD 10 *
          ((⌈minAmountFor (jsReplaceSlash buyParamsSmall.symbol) * 100 /
            (buyParamsSmall.amount * 100)⌉ : ℤ) : ℚ)) 30) ∈
      (buy buyEnvBase buyParamsSmall).2 ∧
    Effect.newOrder (jsReplaceSlash buyParamsSmall.symbol) "BUY" "MARKET"
      { quantity := some (minAmountFor (jsReplaceSlash buyParamsSmall.symbol)) } ∈
      (buy buyEnvBase buyParamsSmall).2 :=
  (buy_autoScale_spec buyEnvBase buyParamsSmall 100 buyValidate_small rfl rfl
    rfl (by decide) (Or.inl buyParamsSmall_adj)).2.1 buyParamsSmall_mult_le
